import Mathlib

/-!
# Employee-hours back end: request handlers and route tables

A shallow embedding of the Express handlers in
`src/controllers/usuariosController.js` and
`src/controllers/funcionariosController.js` and of the route tables in
`src/routes/*.routes.js` and `server.js`.

* JavaScript values are the type `JsVal`; property reads, destructuring and
  truthiness follow the language (reading a property of `undefined` or `null`
  throws a `TypeError`).
* The collaborators the handlers call (`db.query`, `bcrypt.hash`,
  `bcrypt.compare`, `jwt.sign`, `process.env`) live outside the controllers;
  they are the fields of a `World`, each returning either a value or the error
  it throws or rejects with.
* A handler run is an `Eff Response`: the calls it made, in order, with their
  outcomes, and either the response it sent or the error its promise rejected
  with.
-/

namespace Horas

/-! ## JavaScript values -/

/-- JavaScript values, as far as the handlers can tell them apart. Numbers are
the integers (ids, counts, status codes); `NaN` and fractions do not occur in
the handlers. -/
inductive JsVal where
  | undefined : JsVal
  | null : JsVal
  | bool (b : Bool) : JsVal
  | num (n : Int) : JsVal
  | str (s : String) : JsVal
  | arr (items : List JsVal) : JsVal
  | obj (fields : List (String × JsVal)) : JsVal

namespace JsVal

instance : Inhabited JsVal := ⟨JsVal.undefined⟩

/-- Truthiness, as tested by `!x` and `if (x)`. -/
def truthy : JsVal → Bool
  | undefined => false
  | null => false
  | bool b => b
  | num n => n != 0
  | str s => s != ""
  | arr _ => true
  | obj _ => true

/-- Own-field lookup in an object literal or a parsed JSON object. -/
def lookup (k : String) : List (String × JsVal) → JsVal
  | [] => undefined
  | (key, v) :: rest => if key = k then v else lookup k rest

/-- The `TypeError` thrown when a property of `undefined` or `null` is read
or destructured; `k` is the property asked for. -/
def typeError (k : String) : JsVal :=
  obj [("name", str "TypeError"),
       ("message", str ("Cannot read properties of undefined or null (reading " ++ k ++ ")"))]

/-- Property read `v.k`, for the property names the handlers use (none is an
index); an object destructuring reads each of its names this way. The read
throws on `undefined` and `null`; an object yields its field or `undefined`; an
array and a string have a `length`; every other read yields `undefined`. -/
def getProp (v : JsVal) (k : String) : Except JsVal JsVal :=
  match v with
  | undefined => .error (typeError k)
  | null => .error (typeError k)
  | obj fields => .ok (lookup k fields)
  | arr items => .ok (if k = "length" then num items.length else undefined)
  | str s => .ok (if k = "length" then num s.utf16Length else undefined)
  | bool _ => .ok undefined
  | num _ => .ok undefined

/-- Indexed read `v[i]`. The handlers index only what `db.query` returned,
an array of rows; a string is indexed by character here. -/
def getIndex (v : JsVal) (i : Nat) : Except JsVal JsVal :=
  match v with
  | undefined => .error (typeError (toString i))
  | null => .error (typeError (toString i))
  | arr items => .ok (items.getD i undefined)
  | obj fields => .ok (lookup (toString i) fields)
  | str s => .ok (match s.toList.get? i with
      | some c => str (String.singleton c)
      | none => undefined)
  | bool _ => .ok undefined
  | num _ => .ok undefined

/-- The test `v === 0`. -/
def isZero : JsVal → Bool
  | num 0 => true
  | _ => false

end JsVal

open JsVal

/-! ## Requests, responses, collaborators -/

/-- The parts of an Express request the handlers read. -/
structure Request where
  body : JsVal
  params : JsVal

/-- What `res.status(s).json(b)` sends; `res.json(b)` alone sends status 200. -/
structure Response where
  status : Nat
  body : JsVal

/-- The collaborators of the controllers. `query` gives the first element of
the array `db.query` resolves to (the rows of a SELECT, the result header of an
INSERT, UPDATE or DELETE); every handler issues at most one statement, so the
store appears through its answer to that statement. An `error` is the value a
call throws or rejects with. -/
structure World where
  query : String → List JsVal → Except JsVal JsVal
  hash : JsVal → Nat → Except JsVal String
  compare : JsVal → JsVal → Except JsVal Bool
  sign : JsVal → JsVal → JsVal → Except JsVal String
  env : String → JsVal

/-- One call to a collaborator, with its arguments and its outcome. -/
inductive Call where
  | query (sql : String) (params : List JsVal) (result : Except JsVal JsVal) : Call
  | hash (data : JsVal) (cost : Nat) (result : Except JsVal String) : Call
  | compare (data stored : JsVal) (result : Except JsVal Bool) : Call
  | sign (payload secret options : JsVal) (result : Except JsVal String) : Call

/-- A block of handler code that has run: the calls it made, in order, and the
value it produced or the error it threw. For a whole handler the value is the
response sent, and an `error` is a rejected promise (nothing was sent). -/
structure Eff (α : Type) where
  calls : List Call
  result : Except JsVal α

namespace Eff

/-- A block that makes no call and yields `a`. -/
def pure {α : Type} (a : α) : Eff α := ⟨[], .ok a⟩

/-- The block `m`, run after the calls `cs` were made. -/
def after {α : Type} (cs : List Call) (m : Eff α) : Eff α :=
  ⟨cs ++ m.calls, m.result⟩

/-- Sequencing: the second block runs only if the first did not throw. -/
def bind {α β : Type} (m : Eff α) (f : α → Eff β) : Eff β :=
  match m.result with
  | .error e => ⟨m.calls, .error e⟩
  | .ok a => after m.calls (f a)

instance : Monad Eff where
  pure := Eff.pure
  bind := Eff.bind

/-- A step that makes no call: a property read, which may throw. -/
def lift {α : Type} (x : Except JsVal α) : Eff α := ⟨[], x⟩

/-- The block `try body catch (err) handler(err)`, where the handler only
sends a response. -/
def tryCatch {α : Type} (body : Eff α) (handler : JsVal → α) : Eff α :=
  match body.result with
  | .ok a => ⟨body.calls, .ok a⟩
  | .error err => ⟨body.calls, .ok (handler err)⟩

end Eff

/-- The call `await db.query(sql, params)` with `const [x] = ...`. -/
def dbQuery (w : World) (sql : String) (params : List JsVal) : Eff JsVal :=
  ⟨[Call.query sql params (w.query sql params)], w.query sql params⟩

/-- The call `await bcrypt.hash(data, cost)`. -/
def bcryptHash (w : World) (data : JsVal) (cost : Nat) : Eff String :=
  ⟨[Call.hash data cost (w.hash data cost)], w.hash data cost⟩

/-- The call `await bcrypt.compare(data, stored)`. -/
def bcryptCompare (w : World) (data stored : JsVal) : Eff Bool :=
  ⟨[Call.compare data stored (w.compare data stored)], w.compare data stored⟩

/-- The call `jwt.sign(payload, secret, options)`. -/
def jwtSign (w : World) (payload secret options : JsVal) : Eff String :=
  ⟨[Call.sign payload secret options (w.sign payload secret options)],
    w.sign payload secret options⟩

/-- The body of a 500 response: the fields `error` and `details`. -/
def errorBody (msg : String) (err : JsVal) : JsVal :=
  obj [("error", str msg), ("details", err)]

/-- The response sent by each `catch` block: status 500, with the handler's
message as `error` and the caught error as `details`. -/
def serverError (msg : String) (err : JsVal) : Response :=
  ⟨500, errorBody msg err⟩

/-! ## usuariosController.js -/

/-- Statement of createUser. -/
def sqlInsertUsuario : String :=
  "INSERT INTO usuarios (email, senha, funcionario_id) VALUES (?, ?, ?)"

/-- Statement of login. -/
def sqlSelectUsuarioByEmail : String :=
  "SELECT * FROM usuarios WHERE email = ?"

/-- Statement of getAllUsers (a template literal, line breaks included). -/
def sqlSelectUsuarios : String :=
  "\n      SELECT u.id, u.email, f.nome AS funcionario \n      FROM usuarios u \n      LEFT JOIN funcionarios f ON u.funcionario_id = f.id\n    "

/-- Statement of deleteUser. -/
def sqlDeleteUsuario : String :=
  "DELETE FROM usuarios WHERE id = ?"

/-- Handler `exports.createUser`. -/
def createUser (w : World) (req : Request) : Eff Response := do
  let email ← Eff.lift (getProp req.body "email")
  let senha ← Eff.lift (getProp req.body "senha")
  let funcionario_id ← Eff.lift (getProp req.body "funcionario_id")
  if !email.truthy || !senha.truthy || !funcionario_id.truthy then
    pure ⟨400, obj [("error", str "Preencha todos os campos obrigatórios.")]⟩
  else
    Eff.tryCatch (do
      let hashedPassword ← bcryptHash w senha 10
      let result ← dbQuery w sqlInsertUsuario [email, str hashedPassword, funcionario_id]
      let insertId ← Eff.lift (getProp result "insertId")
      pure ⟨201, obj [("id", insertId), ("email", email)]⟩)
      (serverError "Erro ao criar usuário.")

/-- Handler `exports.login`. -/
def login (w : World) (req : Request) : Eff Response := do
  let email ← Eff.lift (getProp req.body "email")
  let senha ← Eff.lift (getProp req.body "senha")
  Eff.tryCatch (do
    let rows ← dbQuery w sqlSelectUsuarioByEmail [email]
    let length ← Eff.lift (getProp rows "length")
    if length.isZero then
      pure ⟨401, obj [("error", str "Usuário não encontrado")]⟩
    else do
      let usuario ← Eff.lift (getIndex rows 0)
      let stored ← Eff.lift (getProp usuario "senha")
      let isPasswordValid ← bcryptCompare w senha stored
      if !isPasswordValid then
        pure ⟨401, obj [("error", str "Senha inválida")]⟩
      else do
        let id ← Eff.lift (getProp usuario "id")
        let funcionario_id ← Eff.lift (getProp usuario "funcionario_id")
        let token ← jwtSign w (obj [("id", id), ("funcionario_id", funcionario_id)])
          (w.env "JWT_SECRET") (obj [("expiresIn", str "1h")])
        let rowEmail ← Eff.lift (getProp usuario "email")
        pure ⟨200, obj [("token", str token), ("usuario", obj [("id", id), ("email", rowEmail)])]⟩)
    (serverError "Erro ao realizar login.")

/-- Handler `exports.getAllUsers`. -/
def getAllUsers (w : World) (_req : Request) : Eff Response :=
  Eff.tryCatch (do
    let rows ← dbQuery w sqlSelectUsuarios []
    pure ⟨200, rows⟩)
    (serverError "Erro ao buscar usuários.")

/-- Handler `exports.deleteUser`. -/
def deleteUser (w : World) (req : Request) : Eff Response := do
  let id ← Eff.lift (getProp req.params "id")
  Eff.tryCatch (do
    let _ ← dbQuery w sqlDeleteUsuario [id]
    pure ⟨200, obj [("message", str "Usuário excluído com sucesso.")]⟩)
    (serverError "Erro ao excluir usuário.")

/-! ## funcionariosController.js -/

/-- Statement of createFuncionario. -/
def sqlInsertFuncionario : String :=
  "INSERT INTO funcionarios (nome, cargo_id) VALUES (?, ?)"

/-- Statement of getAllFuncionarios (a template literal). -/
def sqlSelectFuncionarios : String :=
  "\n      SELECT f.id, f.nome, c.nome AS cargo\n      FROM funcionarios f\n      LEFT JOIN cargos c ON f.cargo_id = c.id\n    "

/-- Statement of getFuncionarioById (a template literal). -/
def sqlSelectFuncionarioById : String :=
  "SELECT f.id, f.nome, c.nome AS cargo\n       FROM funcionarios f\n       LEFT JOIN cargos c ON f.cargo_id = c.id\n       WHERE f.id = ?"

/-- Statement of updateFuncionario. -/
def sqlUpdateFuncionario : String :=
  "UPDATE funcionarios SET nome = ?, cargo_id = ? WHERE id = ?"

/-- Statement of deleteFuncionario. -/
def sqlDeleteFuncionario : String :=
  "DELETE FROM funcionarios WHERE id = ?"

/-- Handler `exports.createFuncionario`. -/
def createFuncionario (w : World) (req : Request) : Eff Response := do
  let nome ← Eff.lift (getProp req.body "nome")
  let cargo_id ← Eff.lift (getProp req.body "cargo_id")
  if !nome.truthy || !cargo_id.truthy then
    pure ⟨400, obj [("error", str "Nome e cargo são obrigatórios.")]⟩
  else
    Eff.tryCatch (do
      let result ← dbQuery w sqlInsertFuncionario [nome, cargo_id]
      let insertId ← Eff.lift (getProp result "insertId")
      pure ⟨201, obj [("id", insertId), ("nome", nome), ("cargo_id", cargo_id)]⟩)
      (serverError "Erro ao criar funcionário.")

/-- Handler `exports.getAllFuncionarios`. -/
def getAllFuncionarios (w : World) (_req : Request) : Eff Response :=
  Eff.tryCatch (do
    let rows ← dbQuery w sqlSelectFuncionarios []
    pure ⟨200, rows⟩)
    (serverError "Erro ao buscar funcionários.")

/-- Handler `exports.getFuncionarioById`. -/
def getFuncionarioById (w : World) (req : Request) : Eff Response := do
  let id ← Eff.lift (getProp req.params "id")
  Eff.tryCatch (do
    let rows ← dbQuery w sqlSelectFuncionarioById [id]
    let length ← Eff.lift (getProp rows "length")
    if length.isZero then
      pure ⟨404, obj [("error", str "Funcionário não encontrado")]⟩
    else do
      let row ← Eff.lift (getIndex rows 0)
      pure ⟨200, row⟩)
    (serverError "Erro ao buscar funcionário.")

/-- Handler `exports.updateFuncionario`. -/
def updateFuncionario (w : World) (req : Request) : Eff Response := do
  let id ← Eff.lift (getProp req.params "id")
  let nome ← Eff.lift (getProp req.body "nome")
  let cargo_id ← Eff.lift (getProp req.body "cargo_id")
  Eff.tryCatch (do
    let _ ← dbQuery w sqlUpdateFuncionario [nome, cargo_id, id]
    pure ⟨200, obj [("message", str "Funcionário atualizado com sucesso.")]⟩)
    (serverError "Erro ao atualizar funcionário.")

/-- Handler `exports.deleteFuncionario`. -/
def deleteFuncionario (w : World) (req : Request) : Eff Response := do
  let id ← Eff.lift (getProp req.params "id")
  Eff.tryCatch (do
    let _ ← dbQuery w sqlDeleteFuncionario [id]
    pure ⟨200, obj [("message", str "Funcionário excluído com sucesso.")]⟩)
    (serverError "Erro ao excluir funcionário.")

/-! ## Route tables (`routes/*.routes.js`, mounted in `server.js`) -/

/-- HTTP methods used by the routers. -/
inductive Method where
  | GET | POST | PUT | DELETE
  deriving DecidableEq, Repr

/-- The nine exported handlers of the two controllers. -/
inductive HandlerName where
  | createUser | login | getAllUsers | deleteUser
  | createFuncionario | getAllFuncionarios | getFuncionarioById
  | updateFuncionario | deleteFuncionario
  deriving DecidableEq, Repr

/-- One callback in the stack of a route: the access guard or a controller
handler. -/
inductive Layer where
  | authenticate : Layer
  | handler (h : HandlerName) : Layer
  deriving DecidableEq, Repr

/-- A registration `router.METHOD(path, ...callbacks)`; the callbacks run in
the order written. -/
structure Route where
  method : Method
  path : String
  stack : List Layer
  deriving DecidableEq, Repr

/-- Router of `usuarios.routes.js`. -/
def usuariosRouter : List Route :=
  [ ⟨.POST, "/", [.handler .createUser]⟩,
    ⟨.POST, "/login", [.handler .login]⟩,
    ⟨.GET, "/", [.authenticate, .handler .getAllUsers]⟩,
    ⟨.DELETE, "/:id", [.authenticate, .handler .deleteUser]⟩ ]

/-- Router of `funcionarios.routes.js`. -/
def funcionariosRouter : List Route :=
  [ ⟨.POST, "/", [.authenticate, .handler .createFuncionario]⟩,
    ⟨.GET, "/", [.authenticate, .handler .getAllFuncionarios]⟩,
    ⟨.GET, "/:id", [.authenticate, .handler .getFuncionarioById]⟩,
    ⟨.PUT, "/:id", [.authenticate, .handler .updateFuncionario]⟩,
    ⟨.DELETE, "/:id", [.authenticate, .handler .deleteFuncionario]⟩ ]

/-- The mounts `app.use(base, router)` of `server.js`, each route paired with
the base path it is mounted under. -/
def appRoutes : List (String × Route) :=
  usuariosRouter.map (fun r => ("/api/usuarios", r)) ++
  funcionariosRouter.map (fun r => ("/api/funcionarios", r))

/-- The controller function behind each handler name. -/
def HandlerName.run : HandlerName → World → Request → Eff Response
  | .createUser => Horas.createUser
  | .login => Horas.login
  | .getAllUsers => Horas.getAllUsers
  | .deleteUser => Horas.deleteUser
  | .createFuncionario => Horas.createFuncionario
  | .getAllFuncionarios => Horas.getAllFuncionarios
  | .getFuncionarioById => Horas.getFuncionarioById
  | .updateFuncionario => Horas.updateFuncionario
  | .deleteFuncionario => Horas.deleteFuncionario

/-- Running the callbacks of a route in order. The guard `authenticate`
(`middleware/auth.js`) is a parameter: it either answers the request itself
(`error`) or calls `next()` with the request it may have added to (`ok`). A
controller handler never calls `next()`, so the stack ends there. `none` means
no callback answered. -/
def runStack (authenticate : Request → Except Response Request) (w : World) :
    List Layer → Request → Option (Eff Response)
  | [], _ => none
  | .authenticate :: rest, req =>
    match authenticate req with
    | .error r => some (Eff.pure r)
    | .ok req2 => runStack authenticate w rest req2
  | .handler h :: _, req => some (h.run w req)

/-! ## Observations on a run -/

/-- Whether a call is a `jwt.sign`. -/
def Call.isSign : Call → Bool
  | .sign _ _ _ _ => true
  | _ => false

/-- Whether a call is a `db.query`. -/
def Call.isQuery : Call → Bool
  | .query _ _ _ => true
  | _ => false

/-- The error a call threw or rejected with, if it failed. -/
def Call.failure : Call → Option JsVal
  | .query _ _ (.error e) => some e
  | .hash _ _ (.error e) => some e
  | .compare _ _ (.error e) => some e
  | .sign _ _ _ (.error e) => some e
  | _ => none

/-- The message each handler puts in the `error` field of its 500 response. -/
def HandlerName.errorMessage : HandlerName → String
  | .createUser => "Erro ao criar usuário."
  | .login => "Erro ao realizar login."
  | .getAllUsers => "Erro ao buscar usuários."
  | .deleteUser => "Erro ao excluir usuário."
  | .createFuncionario => "Erro ao criar funcionário."
  | .getAllFuncionarios => "Erro ao buscar funcionários."
  | .getFuncionarioById => "Erro ao buscar funcionário."
  | .updateFuncionario => "Erro ao atualizar funcionário."
  | .deleteFuncionario => "Erro ao excluir funcionário."

/-- What it means for a run to turn its failures into a 500 response with
the message `msg`: a response was sent (the promise did not reject); if any call
of the run failed with `err`, that response is 500 with `err` as details; and a
500 response always has that shape. -/
def Eff.AnswersFailures (msg : String) (run : Eff Response) : Prop :=
  (∃ r, run.result = .ok r) ∧
  (∀ c ∈ run.calls, ∀ err, c.failure = some err →
    run.result = .ok ⟨500, obj [("error", str msg), ("details", err)]⟩) ∧
  (∀ r, run.result = .ok r → r.status = 500 →
    ∃ err, r.body = obj [("error", str msg), ("details", err)])

/-- Whether the characters `p` occur consecutively in `s`. -/
def occursIn (p : List Char) : List Char → Bool
  | [] => p.isEmpty
  | c :: cs => p.isPrefixOf (c :: cs) || occursIn p cs

mutual
/-- Whether the text `needle` occurs in a string held anywhere in a value (as
a string itself, an array item or a field value, at any depth). -/
def JsVal.mentions (needle : String) : JsVal → Bool
  | .str s => occursIn needle.toList s.toList
  | .arr items => JsVal.mentionsItems needle items
  | .obj fields => JsVal.mentionsFields needle fields
  | _ => false
/-- The same test over the items of an array. -/
def JsVal.mentionsItems (needle : String) : List JsVal → Bool
  | [] => false
  | v :: vs => JsVal.mentions needle v || JsVal.mentionsItems needle vs
/-- The same test over the field values of an object. -/
def JsVal.mentionsFields (needle : String) : List (String × JsVal) → Bool
  | [] => false
  | (_, v) :: rest => JsVal.mentions needle v || JsVal.mentionsFields needle rest
end

/-! ## Sample collaborators and requests -/

/-- A user row as `SELECT * FROM usuarios` returns it. -/
def sampleUsuario : JsVal :=
  obj [("id", num 7), ("email", str "joao.silva@example.com"),
       ("senha", str "$2a$10$N9qo8uLOickgx2ZMRZoMye"), ("funcionario_id", num 15)]

/-- A world whose store answers every statement with `answer`, whose hash
puts a marker in front of the password, whose comparison always yields `valid`,
and whose signer knows one payload only (user 7, employee 15). -/
def sampleWorld (answer : Except JsVal JsVal) (valid : Bool) : World where
  query := fun _ _ => answer
  hash := fun data _ =>
    match data with
    | str s => .ok ("$2a$10$" ++ s)
    | _ => .error (str "Illegal arguments")
  compare := fun _ _ => .ok valid
  sign := fun payload _ _ =>
    match getProp payload "id", getProp payload "funcionario_id" with
    | .ok (num 7), .ok (num 15) => .ok "eyJhbGciOiJIUzI1NiJ9.e30.c2ln"
    | _, _ => .error (str "unexpected payload")
  env := fun k => if k = "JWT_SECRET" then str "segredo" else undefined

/-- A verifier for the tokens of `sampleWorld`, issued at second 1000 with
one hour to live. -/
def sampleVerify (token : String) (_secret : JsVal) (now : Nat) : Option JsVal :=
  if token = "eyJhbGciOiJIUzI1NiJ9.e30.c2ln" ∧ now < 1000 + 3600 then
    some (obj [("id", num 7), ("funcionario_id", num 15), ("iat", num 1000), ("exp", num 4600)])
  else none

/-- How a parameter is written into the text of a statement. -/
def sqlLiteral : JsVal → String
  | str s => "\x27" ++ s ++ "\x27"
  | num n => toString n
  | JsVal.bool true => "true"
  | JsVal.bool false => "false"
  | _ => "NULL"

/-- The text of a statement with each `?` replaced by the next parameter. -/
def formatSql : List Char → List JsVal → List Char
  | [], _ => []
  | c :: cs, [] => c :: formatSql cs []
  | c :: cs, p :: ps =>
    if c = '?' then (sqlLiteral p).toList ++ formatSql cs ps else c :: formatSql cs (p :: ps)

/-- A world whose store rejects every statement as a duplicate entry; the
error carries the statement as it was sent (field `sql`), the way the MySQL
driver reports a failed query. The other collaborators are those of
`sampleWorld`. -/
def duplicateEntryWorld : World where
  query := fun sql params =>
    .error (obj [("code", str "ER_DUP_ENTRY"), ("errno", num 1062), ("sqlState", str "23000"),
      ("sql", str (String.mk (formatSql sql.toList params)))])
  hash := (sampleWorld (.ok undefined) true).hash
  compare := (sampleWorld (.ok undefined) true).compare
  sign := (sampleWorld (.ok undefined) true).sign
  env := (sampleWorld (.ok undefined) true).env

/-- A login request. -/
def sampleLogin : Request :=
  ⟨obj [("email", str "joao.silva@example.com"), ("senha", str "SenhaForte123!")], obj []⟩

/-- A registration request. -/
def sampleRegistration : Request :=
  ⟨obj [("email", str "joao.silva@example.com"), ("senha", str "SenhaForte123!"),
        ("funcionario_id", num 15)], obj []⟩

/-- The rows of the user listing: one user whose employee is gone. -/
def sampleUserList : JsVal :=
  arr [obj [("id", num 7), ("email", str "joao.silva@example.com"), ("funcionario", null)]]

/-- A request naming the id 7 in its path, with no body parsed. -/
def sampleById : Request :=
  ⟨obj [], obj [("id", str "7")]⟩

/-- An employee row as the lookup by id returns it: no role joined. -/
def sampleFuncionario : JsVal :=
  obj [("id", num 7), ("nome", str "Ana"), ("cargo", null)]

/-- The result header of an UPDATE or DELETE that matched no row. -/
def sampleNoMatch : JsVal :=
  obj [("affectedRows", num 0), ("insertId", num 0)]

/-- The result header of a successful INSERT. -/
def sampleInsertResult : JsVal :=
  obj [("affectedRows", num 1), ("insertId", num 7)]

/-! ## The store behind the listing statements -/

/-- A row of table cargos: `id INT AUTO_INCREMENT PRIMARY KEY`,
`nome VARCHAR(100) NOT NULL`. -/
structure Cargo where
  id : Int
  nome : String

/-- A row of table funcionarios; `cargo_id INT` may be NULL (`none`). -/
structure Funcionario where
  id : Int
  nome : String
  cargo_id : Option Int

/-- A row of table usuarios; `funcionario_id INT` may be NULL (`none`). -/
structure Usuario where
  id : Int
  email : String
  senha : String
  funcionario_id : Option Int

/-- The three tables of the store. -/
structure Store where
  cargos : List Cargo
  funcionarios : List Funcionario
  usuarios : List Usuario

/-- The rows of `l LEFT JOIN r ON cond`: each row of `l` paired with every
row of `r` the condition holds for, or with NULL (`none`) when it holds for
none. -/
def leftJoin {α β : Type} (cond : α → β → Bool) (r : List β) : List α → List (α × Option β)
  | [] => []
  | a :: rest =>
    (match r.filter (cond a) with
      | [] => [(a, none)]
      | b :: bs => (b :: bs).map (fun x => (a, some x))) ++ leftJoin cond r rest

/-- A nullable text column as a JavaScript value. -/
def nullable : Option String → JsVal
  | some s => str s
  | none => null

/-- The rows of `SELECT f.id, f.nome, c.nome AS cargo FROM funcionarios f
LEFT JOIN cargos c ON f.cargo_id = c.id`; a NULL `cargo_id` equals no id. -/
def selectFuncionarios (st : Store) : List JsVal :=
  (leftJoin (fun (f : Funcionario) (c : Cargo) => f.cargo_id == some c.id) st.cargos
    st.funcionarios).map
    (fun p => obj [("id", num p.1.id), ("nome", str p.1.nome),
      ("cargo", nullable (p.2.map (fun c => c.nome)))])

/-- The rows of `SELECT u.id, u.email, f.nome AS funcionario FROM usuarios u
LEFT JOIN funcionarios f ON u.funcionario_id = f.id`. -/
def selectUsuarios (st : Store) : List JsVal :=
  (leftJoin (fun (u : Usuario) (f : Funcionario) => u.funcionario_id == some f.id)
    st.funcionarios st.usuarios).map
    (fun p => obj [("id", num p.1.id), ("email", str p.1.email),
      ("funcionario", nullable (p.2.map (fun f => f.nome)))])

/-- A world whose store answers the two listing statements from the tables
`st` and every other statement as `base` does; the other collaborators are
those of `base`. -/
def storeWorld (st : Store) (base : World) : World where
  query := fun sql params =>
    if sql = sqlSelectFuncionarios then .ok (arr (selectFuncionarios st))
    else if sql = sqlSelectUsuarios then .ok (arr (selectUsuarios st))
    else base.query sql params
  hash := base.hash
  compare := base.compare
  sign := base.sign
  env := base.env

/-- The role joined to an employee when role ids are unique. -/
def cargoOf (st : Store) (f : Funcionario) : Option Cargo :=
  st.cargos.find? (fun c => f.cargo_id == some c.id)

/-- The employee joined to a user when employee ids are unique. -/
def funcionarioOf (st : Store) (u : Usuario) : Option Funcionario :=
  st.funcionarios.find? (fun f => u.funcionario_id == some f.id)

/-- A store with one role, three employees (one without role, one whose role
is gone) and two users (one whose employee is gone). -/
def sampleStore : Store where
  cargos := [⟨1, "Gerente"⟩]
  funcionarios := [⟨1, "Ana", some 1⟩, ⟨2, "Bia", none⟩, ⟨3, "Caio", some 9⟩]
  usuarios := [⟨7, "joao.silva@example.com", "$2a$10$N9qo8uLOickgx2ZMRZoMye", some 1⟩,
    ⟨8, "maria@example.com", "$2a$10$N9qo8uLOickgx2ZMRZoMye", some 42⟩]

/-! ## Schema bootstrap (`config/initDB.js`) and start-up (`server.js`) -/

/-- Column types used by the schema. -/
inductive SqlType where
  | int : SqlType
  | varchar (length : Nat) : SqlType
  deriving DecidableEq, Repr

/-- A column definition of a CREATE TABLE statement. -/
structure ColumnDef where
  name : String
  type : SqlType
  autoIncrement : Bool
  primaryKey : Bool
  notNull : Bool
  unique : Bool
  deriving DecidableEq, Repr

/-- A clause `FOREIGN KEY (column) REFERENCES refTable(refColumn)`. -/
structure ForeignKey where
  column : String
  refTable : String
  refColumn : String
  deriving DecidableEq, Repr

/-- The body of a CREATE TABLE statement. -/
structure TableDef where
  name : String
  columns : List ColumnDef
  foreignKeys : List ForeignKey
  deriving DecidableEq, Repr

/-- The schema statements a MySQL server accepts, as far as bootstrap is
concerned. `ifNotExists` is the clause IF NOT EXISTS. initDB.js sends only the
first two forms. -/
inductive Statement where
  | createDatabase (ifNotExists : Bool) (name : String) : Statement
  | createTable (ifNotExists : Bool) (table : TableDef) : Statement
  | dropDatabase (name : String) : Statement
  | dropTable (name : String) : Statement
  | alterTableAdd (table : String) (column : ColumnDef) : Statement
  deriving DecidableEq, Repr

/-- Table cargos of initDB.js: `id INT AUTO_INCREMENT PRIMARY KEY`,
`nome VARCHAR(100) NOT NULL`. -/
def cargosTable : TableDef :=
  ⟨"cargos",
    [⟨"id", .int, true, true, false, false⟩,
     ⟨"nome", .varchar 100, false, false, true, false⟩],
    []⟩

/-- Table funcionarios of initDB.js: `id INT AUTO_INCREMENT PRIMARY KEY`,
`nome VARCHAR(100) NOT NULL`, `cargo_id INT`,
`FOREIGN KEY (cargo_id) REFERENCES cargos(id)`. -/
def funcionariosTable : TableDef :=
  ⟨"funcionarios",
    [⟨"id", .int, true, true, false, false⟩,
     ⟨"nome", .varchar 100, false, false, true, false⟩,
     ⟨"cargo_id", .int, false, false, false, false⟩],
    [⟨"cargo_id", "cargos", "id"⟩]⟩

/-- Table usuarios of initDB.js: `id INT AUTO_INCREMENT PRIMARY KEY`,
`email VARCHAR(100) NOT NULL UNIQUE`, `senha VARCHAR(255) NOT NULL`,
`funcionario_id INT`, `FOREIGN KEY (funcionario_id) REFERENCES funcionarios(id)`. -/
def usuariosTable : TableDef :=
  ⟨"usuarios",
    [⟨"id", .int, true, true, false, false⟩,
     ⟨"email", .varchar 100, false, false, true, true⟩,
     ⟨"senha", .varchar 255, false, false, true, false⟩,
     ⟨"funcionario_id", .int, false, false, false, false⟩],
    [⟨"funcionario_id", "funcionarios", "id"⟩]⟩

/-- The calls initDB.js makes on the MySQL driver: `mysql.createConnection`
(with no `database` in its configuration), `connection.query`,
`connection.changeUser` and `connection.end`. A missing environment variable is
`none`. -/
inductive DbCall where
  | createConnection (host user password : Option String) : DbCall
  | query (statement : Statement) : DbCall
  | changeUser (database : Option String) : DbCall
  | endConnection : DbCall
  deriving DecidableEq, Repr

/-- What start-up does, in order: a driver call with the error it failed
with (if it failed), a `console.log`, a `console.error` with the error passed to
it, and `app.listen` on a port. -/
inductive BootEvent where
  | call (c : DbCall) (failure : Option JsVal) : BootEvent
  | log (text : String) : BootEvent
  | logError (text : String) (err : JsVal) : BootEvent
  | listen (port : Option String) : BootEvent

/-- One statement of the `try` block of initDatabase: an awaited driver call
or a `console.log`. -/
inductive BootAction where
  | call (c : DbCall) : BootAction
  | log (text : String) : BootAction
  deriving DecidableEq, Repr

/-- The text a template literal gives for an environment variable. -/
def interpolate : Option String → String
  | some s => s
  | none => "undefined"

/-- The statements of the `try` block of initDatabase, in order. The database
name is interpolated between backticks into the CREATE DATABASE text and passed
as it is to `changeUser`. -/
def initSteps (env : String → Option String) : List BootAction :=
  [ .call (.createConnection (env "DB_HOST") (env "DB_USER") (env "DB_PASSWORD")),
    .call (.query (.createDatabase true (interpolate (env "DB_NAME")))),
    .log ("✅ Banco de dados \x27" ++ interpolate (env "DB_NAME") ++ "\x27 verificado/criado."),
    .call (.changeUser (env "DB_NAME")),
    .call (.query (.createTable true cargosTable)),
    .call (.query (.createTable true funcionariosTable)),
    .call (.query (.createTable true usuariosTable)),
    .call .endConnection,
    .log "✅ Tabelas verificadas/criadas com sucesso!" ]

/-- A run of part of start-up over a driver with state `σ`: what happened,
the error that stopped it (if any), and the state of the driver afterwards. -/
structure BootRun (σ : Type) where
  events : List BootEvent
  failure : Option JsVal
  state : σ

/-- Running straight-line statements: each driver call is awaited; the first
one that fails throws, and nothing after it runs. -/
def runSteps {σ : Type} (exec : σ → DbCall → Except JsVal σ) :
    List BootAction → σ → BootRun σ
  | [], s => ⟨[], none, s⟩
  | .log text :: rest, s =>
    ⟨.log text :: (runSteps exec rest s).events, (runSteps exec rest s).failure,
      (runSteps exec rest s).state⟩
  | .call c :: rest, s =>
    match exec s c with
    | .error err => ⟨[.call c (some err)], some err, s⟩
    | .ok s2 =>
      ⟨.call c none :: (runSteps exec rest s2).events, (runSteps exec rest s2).failure,
        (runSteps exec rest s2).state⟩

/-- Function `initDatabase` of initDB.js: the `try` block, and the `catch`
block that logs the error. The error is not rethrown, so the promise resolves:
`failure` is `none` either way. -/
def initDatabase {σ : Type} (exec : σ → DbCall → Except JsVal σ) (env : String → Option String)
    (s : σ) : BootRun σ :=
  match (runSteps exec (initSteps env) s).failure with
  | none => runSteps exec (initSteps env) s
  | some err =>
    ⟨(runSteps exec (initSteps env) s).events ++
        [.logError "❌ Erro ao inicializar banco de dados:" err],
      none, (runSteps exec (initSteps env) s).state⟩

/-- The last statement of server.js: `initDatabase().then(...)` calls
`app.listen` on `process.env.PORT` once the promise of initDatabase resolves,
and not if it rejects; the callback of `listen` logs the port. -/
def startup {σ : Type} (exec : σ → DbCall → Except JsVal σ) (env : String → Option String)
    (s : σ) : BootRun σ :=
  match (initDatabase exec env s).failure with
  | none =>
    ⟨(initDatabase exec env s).events ++
        [.listen (env "PORT"),
         .log ("🚀 Servidor rodando na porta " ++ interpolate (env "PORT"))],
      none, (initDatabase exec env s).state⟩
  | some err => ⟨(initDatabase exec env s).events, some err, (initDatabase exec env s).state⟩

/-- The driver calls of a run, in order. -/
def BootRun.calls {σ : Type} (r : BootRun σ) : List DbCall :=
  r.events.filterMap (fun e => match e with
    | .call c _ => some c
    | _ => none)

/-- Whether a driver call of the run failed. -/
def BootEvent.failed : BootEvent → Bool
  | .call _ (some _) => true
  | _ => false

/-- Whether a table of that name is among `tables`. -/
def hasTable (tables : List TableDef) (name : String) : Bool :=
  tables.any (fun t => t.name == name)

/-- Whether `tables` holds the table `table` with a column `column`. -/
def hasColumn (tables : List TableDef) (table column : String) : Bool :=
  tables.any (fun t => t.name == table && t.columns.any (fun c => c.name == column))

/-- The state of a MySQL server as bootstrap sees it: the tables of each
existing database, in creation order, and the session of the connection (`none`
when no connection is open, otherwise its current database, if one is
selected). -/
structure MySql where
  databases : String → Option (List TableDef)
  session : Option (Option String)

/-- A schema statement run in a session whose current database is
`current`. CREATE of something that exists fails unless IF NOT EXISTS was
given, in which case nothing changes; CREATE TABLE needs a current database and
the tables its foreign keys reference. -/
def mysqlStatement (s : MySql) (current : Option String) : Statement → Except JsVal MySql
  | .createDatabase ifNotExists name =>
    match s.databases name with
    | some _ => if ifNotExists then .ok s else .error (str "ER_DB_CREATE_EXISTS")
    | none => .ok ⟨Function.update s.databases name (some []), s.session⟩
  | .createTable ifNotExists table =>
    match current with
    | none => .error (str "ER_NO_DB_ERROR")
    | some db =>
      match s.databases db with
      | none => .error (str "ER_BAD_DB_ERROR")
      | some tables =>
        if hasTable tables table.name then
          if ifNotExists then .ok s else .error (str "ER_TABLE_EXISTS_ERROR")
        else if table.foreignKeys.all
            (fun fk => hasColumn (tables ++ [table]) fk.refTable fk.refColumn) then
          .ok ⟨Function.update s.databases db (some (tables ++ [table])), s.session⟩
        else .error (str "ER_FK_CANNOT_OPEN_PARENT")
  | .dropDatabase name =>
    match s.databases name with
    | none => .error (str "ER_DB_DROP_EXISTS")
    | some _ =>
      .ok ⟨Function.update s.databases name none,
        if current = some name then some none else s.session⟩
  | .dropTable name =>
    match current with
    | none => .error (str "ER_NO_DB_ERROR")
    | some db =>
      match s.databases db with
      | none => .error (str "ER_BAD_DB_ERROR")
      | some tables =>
        if hasTable tables name then
          .ok ⟨Function.update s.databases db (some (tables.filter (fun t => t.name != name))),
            s.session⟩
        else .error (str "ER_BAD_TABLE_ERROR")
  | .alterTableAdd name column =>
    match current with
    | none => .error (str "ER_NO_DB_ERROR")
    | some db =>
      match s.databases db with
      | none => .error (str "ER_BAD_DB_ERROR")
      | some tables =>
        if hasTable tables name then
          .ok ⟨Function.update s.databases db
              (some (tables.map (fun t =>
                if t.name = name then ⟨t.name, t.columns ++ [column], t.foreignKeys⟩ else t))),
            s.session⟩
        else .error (str "ER_NO_SUCH_TABLE")

/-- A MySQL server answering the driver calls of bootstrap. Connecting opens
a session with no database selected; `changeUser` resets the session to the
database named, which must exist, or to none; a query or `end` needs an open
session. -/
def mysqlExec (s : MySql) : DbCall → Except JsVal MySql
  | .createConnection _ _ _ => .ok ⟨s.databases, some none⟩
  | .changeUser database =>
    match s.session with
    | none => .error (str "connection is closed")
    | some _ =>
      match database with
      | none => .ok ⟨s.databases, some none⟩
      | some db =>
        match s.databases db with
        | none => .error (str "ER_BAD_DB_ERROR")
        | some _ => .ok ⟨s.databases, some (some db)⟩
  | .query statement =>
    match s.session with
    | none => .error (str "connection is closed")
    | some current => mysqlStatement s current statement
  | .endConnection =>
    match s.session with
    | none => .error (str "connection is closed")
    | some _ => .ok ⟨s.databases, none⟩

/-- A store is bootstrapped for the database `db` when that database exists
and holds tables named cargos, funcionarios and usuarios. -/
def MySql.bootstrapped (s : MySql) (db : String) : Prop :=
  ∃ tables, s.databases db = some tables ∧ hasTable tables "cargos" = true ∧
    hasTable tables "funcionarios" = true ∧ hasTable tables "usuarios" = true

/-- An environment naming the database `horas` and the port 3000. -/
def sampleEnv (k : String) : Option String :=
  if k = "DB_NAME" then some "horas"
  else if k = "DB_HOST" then some "localhost"
  else if k = "DB_USER" then some "root"
  else if k = "PORT" then some "3000"
  else none

/-- A MySQL server with no database and no open connection. -/
def emptyMySql : MySql := ⟨fun _ => none, none⟩

/-- A driver that cannot reach the server: every call fails. -/
def refusingExec (_s : Unit) (_c : DbCall) : Except JsVal Unit :=
  .error (str "ECONNREFUSED")

/-- Whether a driver call can only add to the schema: connecting, switching
database, closing, and CREATE with IF NOT EXISTS. -/
def DbCall.additive : DbCall → Bool
  | .query (.createDatabase ifNotExists _) => ifNotExists
  | .query (.createTable ifNotExists _) => ifNotExists
  | .query _ => false
  | _ => true

/-- Whether a statement of the `try` block can only add to the schema. -/
def BootAction.additive : BootAction → Bool
  | .call c => c.additive
  | .log _ => true

/-- The table a call creates, if it is a CREATE TABLE. -/
def DbCall.createdTable : DbCall → Option TableDef
  | .query (.createTable _ table) => some table
  | _ => none

/-! ## Evaluation lemmas -/

namespace Eff

variable {α β : Type}

theorem lift_bind (x : Except JsVal α) (f : α → Eff β) :
    (Eff.lift x >>= f) = match x with
      | .error e => ⟨[], .error e⟩
      | .ok a => f a := by
  cases x <;> rfl

theorem call_bind (c : Call) (x : Except JsVal α) (f : α → Eff β) :
    ((⟨[c], x⟩ : Eff α) >>= f) = match x with
      | .error e => ⟨[c], .error e⟩
      | .ok a => after [c] (f a) := by
  cases x <;> rfl

theorem tryCatch_after (cs : List Call) (m : Eff α) (h : JsVal → α) :
    tryCatch (after cs m) h = after cs (tryCatch m h) := by
  unfold tryCatch after; cases hr : m.result <;> simp [hr]

end Eff

@[simp] theorem getProp_undefined (k : String) :
    getProp undefined k = .error (typeError k) := rfl

@[simp] theorem getProp_null (k : String) :
    getProp null k = .error (typeError k) := rfl

@[simp] theorem getProp_obj (fields : List (String × JsVal)) (k : String) :
    getProp (obj fields) k = .ok (lookup k fields) := rfl

@[simp] theorem getProp_arr (items : List JsVal) (k : String) :
    getProp (arr items) k = .ok (if k = "length" then num items.length else undefined) := rfl

@[simp] theorem getIndex_arr (items : List JsVal) (i : Nat) :
    getIndex (arr items) i = .ok (items.getD i undefined) := rfl

@[simp] theorem isZero_num (n : Int) : isZero (num n) = decide (n = 0) := by
  match n with
  | .ofNat 0 => rfl
  | .ofNat (m + 1) =>
    have h : Int.ofNat (m + 1) ≠ 0 := by simp only [Int.ofNat_eq_coe]; omega
    rw [decide_eq_false h]; rfl
  | .negSucc m =>
    have h : Int.negSucc m ≠ 0 := by simp
    rw [decide_eq_false h]; rfl

@[simp] theorem isZero_undefined : isZero undefined = false := rfl

/-! ## Login -/

/-- C1: for every login request in which the lookup by email and the
password comparison complete without error: when the lookup returns no row
the response is 401 "Usuário não encontrado"; when it returns a row and the
comparison of the submitted password with that row's stored hash returns false
the response is 401 "Senha inválida"; a 200 response occurs only when a row was
returned and the comparison returned true, and its body is the token with the id
and email of that row. In both 401 cases no token is signed and the body holds
only the error. The one statement login sends to the store is the lookup with
the submitted email as its parameter. -/
theorem login_responses (w : World) (req : Request) :
    (∀ ps, Call.query sqlSelectUsuarioByEmail ps (.ok (arr [])) ∈ (login w req).calls →
      (login w req).result = .ok ⟨401, obj [("error", str "Usuário não encontrado")]⟩ ∧
      ∀ c ∈ (login w req).calls, c.isSign = false) ∧
    (∀ ps usuario rest data stored,
      Call.query sqlSelectUsuarioByEmail ps (.ok (arr (usuario :: rest))) ∈ (login w req).calls →
      Call.compare data stored (.ok false) ∈ (login w req).calls →
      (login w req).result = .ok ⟨401, obj [("error", str "Senha inválida")]⟩ ∧
      getProp req.body "senha" = .ok data ∧ getProp usuario "senha" = .ok stored ∧
      ∀ c ∈ (login w req).calls, c.isSign = false) ∧
    (∀ ps rows r,
      Call.query sqlSelectUsuarioByEmail ps (.ok (arr rows)) ∈ (login w req).calls →
      (login w req).result = .ok r → r.status = 200 →
      ∃ usuario rest data stored token id rowEmail,
        rows = usuario :: rest ∧
        getProp req.body "senha" = .ok data ∧ getProp usuario "senha" = .ok stored ∧
        Call.compare data stored (.ok true) ∈ (login w req).calls ∧
        getProp usuario "id" = .ok id ∧ getProp usuario "email" = .ok rowEmail ∧
        r.body = obj [("token", str token), ("usuario", obj [("id", id), ("email", rowEmail)])]) ∧
    (∀ sql ps res, Call.query sql ps res ∈ (login w req).calls →
      sql = sqlSelectUsuarioByEmail ∧
      ∃ email, getProp req.body "email" = .ok email ∧ ps = [email]) := by
  refine ⟨?_, ?_, ?_, ?_⟩
  · intro ps h
    simp only [login, dbQuery, bcryptCompare, jwtSign, Eff.lift_bind, Eff.call_bind] at h ⊢
    revert h
    repeat' split
    all_goals intro h
    all_goals simp_all [Eff.tryCatch_after, Eff.after, Eff.tryCatch, Pure.pure, Eff.pure,
      Call.isSign]
    all_goals (try (obtain ⟨rfl, rfl⟩ := h))
    all_goals (try simp_all)
    all_goals (try subst_vars)
    all_goals (try simp_all)
  · intro ps usuario rest data stored h h2
    simp only [login, dbQuery, bcryptCompare, jwtSign, Eff.lift_bind, Eff.call_bind] at h h2 ⊢
    revert h h2
    repeat' split
    all_goals intro h h2
    all_goals simp [Eff.tryCatch_after, Eff.after, Eff.tryCatch, Pure.pure, Eff.pure,
      Call.isSign, serverError] at h h2 ⊢
    all_goals aesop
  · intro ps rows r h hr h200
    simp only [login, dbQuery, bcryptCompare, jwtSign, Eff.lift_bind, Eff.call_bind] at h hr ⊢
    revert h hr
    repeat' split
    all_goals intro h hr
    all_goals simp [Eff.tryCatch_after, Eff.after, Eff.tryCatch, Pure.pure, Eff.pure,
      Call.isSign, serverError] at h hr ⊢
    all_goals (try subst_vars)
    all_goals (try simp_all)
    obtain ⟨rfl, rfl⟩ := h
    cases rows with
    | nil => simp_all; subst_vars; simp_all
    | cons u rest => simp_all
  · intro sql ps res h
    simp only [login, dbQuery, bcryptCompare, jwtSign, Eff.lift_bind, Eff.call_bind] at h ⊢
    revert h
    repeat' split
    all_goals intro h
    all_goals simp_all [Eff.tryCatch_after, Eff.after, Eff.tryCatch, Pure.pure, Eff.pure]

/-- Witness for C1: no row, wrong password, and a successful login. -/
theorem login_responses_witness :
    (Call.query sqlSelectUsuarioByEmail [str "joao.silva@example.com"] (.ok (arr [])) ∈
        (login (sampleWorld (.ok (arr [])) true) sampleLogin).calls ∧
      (login (sampleWorld (.ok (arr [])) true) sampleLogin).result =
        .ok ⟨401, obj [("error", str "Usuário não encontrado")]⟩) ∧
    (Call.query sqlSelectUsuarioByEmail [str "joao.silva@example.com"]
          (.ok (arr [sampleUsuario])) ∈
        (login (sampleWorld (.ok (arr [sampleUsuario])) false) sampleLogin).calls ∧
      Call.compare (str "SenhaForte123!") (str "$2a$10$N9qo8uLOickgx2ZMRZoMye") (.ok false) ∈
        (login (sampleWorld (.ok (arr [sampleUsuario])) false) sampleLogin).calls ∧
      (login (sampleWorld (.ok (arr [sampleUsuario])) false) sampleLogin).result =
        .ok ⟨401, obj [("error", str "Senha inválida")]⟩) ∧
    ((login (sampleWorld (.ok (arr [sampleUsuario])) true) sampleLogin).result =
        .ok ⟨200, obj [("token", str "eyJhbGciOiJIUzI1NiJ9.e30.c2ln"),
          ("usuario", obj [("id", num 7), ("email", str "joao.silva@example.com")])]⟩ ∧
      ∃ usuario rest data stored token id rowEmail,
        [sampleUsuario] = usuario :: rest ∧
        getProp sampleLogin.body "senha" = .ok data ∧ getProp usuario "senha" = .ok stored ∧
        Call.compare data stored (.ok true) ∈
          (login (sampleWorld (.ok (arr [sampleUsuario])) true) sampleLogin).calls ∧
        getProp usuario "id" = .ok id ∧ getProp usuario "email" = .ok rowEmail ∧
        (⟨200, obj [("token", str "eyJhbGciOiJIUzI1NiJ9.e30.c2ln"),
          ("usuario", obj [("id", num 7), ("email", str "joao.silva@example.com")])]⟩ : Response).body =
          obj [("token", str token), ("usuario", obj [("id", id), ("email", rowEmail)])]) :=
  ⟨⟨List.Mem.head _,
      ((login_responses (sampleWorld (.ok (arr [])) true) sampleLogin).1 _ (List.Mem.head _)).1⟩,
    ⟨List.Mem.head _, List.Mem.tail _ (List.Mem.head _),
      ((login_responses (sampleWorld (.ok (arr [sampleUsuario])) false) sampleLogin).2.1
        _ _ _ _ _ (List.Mem.head _) (List.Mem.tail _ (List.Mem.head _))).1⟩,
    ⟨rfl, (login_responses (sampleWorld (.ok (arr [sampleUsuario])) true) sampleLogin).2.2.1
        [str "joao.silva@example.com"] [sampleUsuario] _ (List.Mem.head _) rfl rfl⟩⟩

/-- C2: on every successful login (a 200 response) the token in the body is
what `jwt.sign` returned for the payload holding the id and the funcionario_id
of the row the lookup returned, signed under `process.env.JWT_SECRET` with the
option `expiresIn: "1h"`; so any verifier that, within 3600 seconds of issuance,
recovers the id and funcionario_id of every payload signed under that secret
with that option recovers exactly this user's id and employee id from the
returned token. -/
theorem login_token (w : World) (req : Request) (r : Response)
    (verify : String → JsVal → Nat → Option JsVal) (issuedAt : Nat)
    (hr : (login w req).result = .ok r) (h200 : r.status = 200)
    (hinv : ∀ payload tok t,
      w.sign payload (w.env "JWT_SECRET") (obj [("expiresIn", str "1h")]) = .ok tok →
      t < issuedAt + 3600 →
      ∃ decoded, verify tok (w.env "JWT_SECRET") t = some decoded ∧
        getProp decoded "id" = getProp payload "id" ∧
        getProp decoded "funcionario_id" = getProp payload "funcionario_id") :
    ∃ ps rows usuario id funcionario_id token,
      Call.query sqlSelectUsuarioByEmail ps (.ok rows) ∈ (login w req).calls ∧
      getIndex rows 0 = .ok usuario ∧
      getProp usuario "id" = .ok id ∧
      getProp usuario "funcionario_id" = .ok funcionario_id ∧
      Call.sign (obj [("id", id), ("funcionario_id", funcionario_id)]) (w.env "JWT_SECRET")
        (obj [("expiresIn", str "1h")]) (.ok token) ∈ (login w req).calls ∧
      getProp r.body "token" = .ok (str token) ∧
      ∀ t, t < issuedAt + 3600 →
        ∃ decoded, verify token (w.env "JWT_SECRET") t = some decoded ∧
          getProp decoded "id" = .ok id ∧
          getProp decoded "funcionario_id" = .ok funcionario_id := by
  simp only [login, dbQuery, bcryptCompare, jwtSign, Eff.lift_bind, Eff.call_bind] at hr ⊢
  revert hr
  repeat' split
  all_goals intro hr
  all_goals simp [Eff.tryCatch_after, Eff.after, Eff.tryCatch, Pure.pure, Eff.pure,
      serverError] at hr ⊢
  all_goals (try subst_vars)
  all_goals (try simp_all)
  refine ⟨_, _, ⟨rfl, rfl⟩, _, by assumption, _, by assumption, _, by assumption, _,
    ⟨⟨rfl, rfl⟩, rfl⟩, by simp [lookup], ?_⟩
  intro t ht
  obtain ⟨d, hd, h1, h2⟩ := hinv _ _ t (by assumption) ht
  exact ⟨d, hd, by simpa [lookup] using h1, by simpa [lookup] using h2⟩

/-- Witness for C2: a successful login of user 7 (employee 15) against a
signer and a verifier that agree. -/
theorem login_token_witness :
    (login (sampleWorld (.ok (arr [sampleUsuario])) true) sampleLogin).result =
        .ok ⟨200, obj [("token", str "eyJhbGciOiJIUzI1NiJ9.e30.c2ln"),
          ("usuario", obj [("id", num 7), ("email", str "joao.silva@example.com")])]⟩ ∧
    ∃ ps rows usuario id funcionario_id token,
      Call.query sqlSelectUsuarioByEmail ps (.ok rows) ∈
        (login (sampleWorld (.ok (arr [sampleUsuario])) true) sampleLogin).calls ∧
      getIndex rows 0 = .ok usuario ∧
      getProp usuario "id" = .ok id ∧
      getProp usuario "funcionario_id" = .ok funcionario_id ∧
      Call.sign (obj [("id", id), ("funcionario_id", funcionario_id)])
        ((sampleWorld (.ok (arr [sampleUsuario])) true).env "JWT_SECRET")
        (obj [("expiresIn", str "1h")]) (.ok token) ∈
        (login (sampleWorld (.ok (arr [sampleUsuario])) true) sampleLogin).calls ∧
      getProp (obj [("token", str "eyJhbGciOiJIUzI1NiJ9.e30.c2ln"),
          ("usuario", obj [("id", num 7), ("email", str "joao.silva@example.com")])]) "token" =
        .ok (str token) ∧
      ∀ t, t < 1000 + 3600 →
        ∃ decoded,
          sampleVerify token ((sampleWorld (.ok (arr [sampleUsuario])) true).env "JWT_SECRET") t =
            some decoded ∧
          getProp decoded "id" = .ok id ∧
          getProp decoded "funcionario_id" = .ok funcionario_id :=
  ⟨rfl, login_token (sampleWorld (.ok (arr [sampleUsuario])) true) sampleLogin _ sampleVerify 1000
    rfl rfl (by
      intro payload tok t hs ht
      simp only [sampleWorld] at hs
      split at hs
      · rename_i h1 h2
        simp only [Except.ok.injEq] at hs
        subst hs
        exact ⟨_, if_pos ⟨rfl, ht⟩, by rw [h1]; rfl, by rw [h2]; rfl⟩
      · simp at hs)⟩

/-! ## Password hashes and response bodies -/

/-- C3, as stated, fails: when the store rejects the INSERT of a registration
and its error carries the statement that was sent, the 500 body of createUser
echoes that error as `details` and so contains the freshly computed hash. -/
theorem createUser_error_echoes_hash :
    duplicateEntryWorld.hash (str "SenhaForte123!") 10 = .ok "$2a$10$SenhaForte123!" ∧
    (createUser duplicateEntryWorld sampleRegistration).result =
      .ok ⟨500, obj [("error", str "Erro ao criar usuário."),
        ("details", obj [("code", str "ER_DUP_ENTRY"), ("errno", num 1062),
          ("sqlState", str "23000"),
          ("sql", str "INSERT INTO usuarios (email, senha, funcionario_id) VALUES (\x27joao.silva@example.com\x27, \x27$2a$10$SenhaForte123!\x27, 15)")])]⟩ ∧
    (obj [("error", str "Erro ao criar usuário."),
        ("details", obj [("code", str "ER_DUP_ENTRY"), ("errno", num 1062),
          ("sqlState", str "23000"),
          ("sql", str "INSERT INTO usuarios (email, senha, funcionario_id) VALUES (\x27joao.silva@example.com\x27, \x27$2a$10$SenhaForte123!\x27, 15)")])]).mentions
      "$2a$10$SenhaForte123!" = true :=
  ⟨rfl, rfl, by decide⟩

/-- C3, amended: outside the 500 responses the user handlers build the body
only from their fixed messages, the submitted email, the store's insert id, the
signed token, the id and email of the row the lookup returned, and (getAllUsers)
the rows the store returned; neither the row's `senha` nor the fresh hash is
copied into it. So a text (a password hash) that occurs in none of those values
occurs in no response body whose status is not 500. -/
theorem user_responses_omit_hash (w : World) (req : Request) (needle : String) (r : Response)
    (hs : r.status ≠ 500) :
    ((createUser w req).result = .ok r →
      (str "Preencha todos os campos obrigatórios.").mentions needle = false →
      (∀ email, getProp req.body "email" = .ok email → email.mentions needle = false) →
      (∀ ps res id, Call.query sqlInsertUsuario ps (.ok res) ∈ (createUser w req).calls →
        getProp res "insertId" = .ok id → id.mentions needle = false) →
      r.body.mentions needle = false) ∧
    ((login w req).result = .ok r →
      (str "Usuário não encontrado").mentions needle = false →
      (str "Senha inválida").mentions needle = false →
      (∀ p s o token, Call.sign p s o (.ok token) ∈ (login w req).calls →
        (str token).mentions needle = false) →
      (∀ ps rows usuario v, Call.query sqlSelectUsuarioByEmail ps (.ok rows) ∈ (login w req).calls →
        getIndex rows 0 = .ok usuario →
        getProp usuario "id" = .ok v ∨ getProp usuario "email" = .ok v →
        v.mentions needle = false) →
      r.body.mentions needle = false) ∧
    ((getAllUsers w req).result = .ok r →
      (∀ ps rows, Call.query sqlSelectUsuarios ps (.ok rows) ∈ (getAllUsers w req).calls →
        rows.mentions needle = false) →
      r.body.mentions needle = false) ∧
    ((deleteUser w req).result = .ok r →
      (str "Usuário excluído com sucesso.").mentions needle = false →
      r.body.mentions needle = false) := by
  refine ⟨?_, ?_, ?_, ?_⟩
  · intro hr hmsg hemail hid
    simp only [createUser, dbQuery, bcryptHash, Eff.lift_bind, Eff.call_bind] at hr hid
    revert hr hid
    repeat' split
    all_goals intro hr hid
    all_goals simp [Eff.tryCatch_after, Eff.after, Eff.tryCatch, Pure.pure, Eff.pure,
      serverError] at hr hid
    all_goals (try subst_vars)
    all_goals (try simp_all [JsVal.mentions, JsVal.mentionsFields])
  · intro hr hm1 hm2 htok hrow
    simp only [login, dbQuery, bcryptCompare, jwtSign, Eff.lift_bind, Eff.call_bind] at hr htok hrow
    revert hr htok hrow
    repeat' split
    all_goals intro hr htok hrow
    all_goals simp [Eff.tryCatch_after, Eff.after, Eff.tryCatch, Pure.pure, Eff.pure,
      serverError] at hr htok hrow
    all_goals (try subst_vars)
    all_goals (try simp_all [JsVal.mentions, JsVal.mentionsFields])
  · intro hr hrows
    simp only [getAllUsers, dbQuery, Eff.lift_bind, Eff.call_bind] at hr hrows
    revert hr hrows
    repeat' split
    all_goals intro hr hrows
    all_goals simp [Eff.tryCatch_after, Eff.after, Eff.tryCatch, Pure.pure, Eff.pure,
      serverError] at hr hrows
    all_goals (try subst_vars)
    all_goals (try simp_all [JsVal.mentions, JsVal.mentionsFields])
  · intro hr hmsg
    simp only [deleteUser, dbQuery, Eff.lift_bind, Eff.call_bind] at hr
    revert hr
    repeat' split
    all_goals intro hr
    all_goals simp [Eff.tryCatch_after, Eff.after, Eff.tryCatch, Pure.pure, Eff.pure,
      serverError] at hr
    all_goals (try subst_vars)
    all_goals (try simp_all [JsVal.mentions, JsVal.mentionsFields])

/-- Witness for the amended C3: a registration, a login, a listing and a
deletion whose bodies hold neither the fresh hash nor the stored one. -/
theorem user_responses_omit_hash_witness :
    (createUser (sampleWorld (.ok sampleInsertResult) true) sampleRegistration).result =
        .ok ⟨201, obj [("id", num 7), ("email", str "joao.silva@example.com")]⟩ ∧
    (sampleWorld (.ok sampleInsertResult) true).hash (str "SenhaForte123!") 10 =
        .ok "$2a$10$SenhaForte123!" ∧
    (obj [("id", num 7), ("email", str "joao.silva@example.com")]).mentions
        "$2a$10$SenhaForte123!" = false ∧
    (login (sampleWorld (.ok (arr [sampleUsuario])) true) sampleLogin).result =
        .ok ⟨200, obj [("token", str "eyJhbGciOiJIUzI1NiJ9.e30.c2ln"),
          ("usuario", obj [("id", num 7), ("email", str "joao.silva@example.com")])]⟩ ∧
    getProp sampleUsuario "senha" = .ok (str "$2a$10$N9qo8uLOickgx2ZMRZoMye") ∧
    (obj [("token", str "eyJhbGciOiJIUzI1NiJ9.e30.c2ln"),
          ("usuario", obj [("id", num 7), ("email", str "joao.silva@example.com")])]).mentions
        "$2a$10$N9qo8uLOickgx2ZMRZoMye" = false ∧
    (getAllUsers (sampleWorld (.ok sampleUserList) true)
        sampleLogin).result =
        .ok ⟨200, sampleUserList⟩ ∧
    (sampleUserList).mentions "$2a$10$N9qo8uLOickgx2ZMRZoMye" = false ∧
    (deleteUser (sampleWorld (.ok sampleInsertResult) true) sampleById).result =
        .ok ⟨200, obj [("message", str "Usuário excluído com sucesso.")]⟩ ∧
    (obj [("message", str "Usuário excluído com sucesso.")]).mentions
        "$2a$10$N9qo8uLOickgx2ZMRZoMye" = false :=
  ⟨rfl, rfl,
    (user_responses_omit_hash (sampleWorld (.ok sampleInsertResult) true) sampleRegistration
      "$2a$10$SenhaForte123!" ⟨201, obj [("id", num 7), ("email", str "joao.silva@example.com")]⟩
      (by decide)).1 rfl (by decide)
      (by intro email h; cases h; decide)
      (by
        intro ps res id hmem hid
        have hc : (createUser (sampleWorld (.ok sampleInsertResult) true) sampleRegistration).calls =
            [Call.hash (str "SenhaForte123!") 10 (.ok "$2a$10$SenhaForte123!"),
              Call.query sqlInsertUsuario [str "joao.silva@example.com",
                str "$2a$10$SenhaForte123!", num 15] (.ok sampleInsertResult)] := rfl
        rw [hc] at hmem
        simp at hmem
        obtain ⟨-, rfl⟩ := hmem
        cases hid
        decide),
    rfl, rfl,
    (user_responses_omit_hash (sampleWorld (.ok (arr [sampleUsuario])) true) sampleLogin
      "$2a$10$N9qo8uLOickgx2ZMRZoMye"
      ⟨200, obj [("token", str "eyJhbGciOiJIUzI1NiJ9.e30.c2ln"),
          ("usuario", obj [("id", num 7), ("email", str "joao.silva@example.com")])]⟩
      (by decide)).2.1 rfl (by decide) (by decide)
      (by
        intro p s o token hmem
        have hc : (login (sampleWorld (.ok (arr [sampleUsuario])) true) sampleLogin).calls =
            [Call.query sqlSelectUsuarioByEmail [str "joao.silva@example.com"]
                (.ok (arr [sampleUsuario])),
              Call.compare (str "SenhaForte123!") (str "$2a$10$N9qo8uLOickgx2ZMRZoMye") (.ok true),
              Call.sign (obj [("id", num 7), ("funcionario_id", num 15)]) (str "segredo")
                (obj [("expiresIn", str "1h")]) (.ok "eyJhbGciOiJIUzI1NiJ9.e30.c2ln")] := rfl
        rw [hc] at hmem
        simp at hmem
        obtain ⟨-, -, -, rfl⟩ := hmem
        decide)
      (by
        intro ps rows usuario v hmem hidx hv
        have hc : (login (sampleWorld (.ok (arr [sampleUsuario])) true) sampleLogin).calls =
            [Call.query sqlSelectUsuarioByEmail [str "joao.silva@example.com"]
                (.ok (arr [sampleUsuario])),
              Call.compare (str "SenhaForte123!") (str "$2a$10$N9qo8uLOickgx2ZMRZoMye") (.ok true),
              Call.sign (obj [("id", num 7), ("funcionario_id", num 15)]) (str "segredo")
                (obj [("expiresIn", str "1h")]) (.ok "eyJhbGciOiJIUzI1NiJ9.e30.c2ln")] := rfl
        rw [hc] at hmem
        simp at hmem
        obtain ⟨-, rfl⟩ := hmem
        cases hidx
        rcases hv with hv | hv <;> cases hv <;> decide),
    rfl,
    (user_responses_omit_hash (sampleWorld (.ok sampleUserList) true) sampleLogin
      "$2a$10$N9qo8uLOickgx2ZMRZoMye"
      ⟨200, sampleUserList⟩ (by decide)).2.2.1 rfl
      (by
        intro ps rows hmem
        have hc : (getAllUsers (sampleWorld (.ok sampleUserList) true)
            sampleLogin).calls =
            [Call.query sqlSelectUsuarios [] (.ok sampleUserList)] := rfl
        rw [hc] at hmem
        simp at hmem
        obtain ⟨-, rfl⟩ := hmem
        decide),
    rfl,
    (user_responses_omit_hash (sampleWorld (.ok sampleInsertResult) true)
      sampleById "$2a$10$N9qo8uLOickgx2ZMRZoMye"
      ⟨200, obj [("message", str "Usuário excluído com sucesso.")]⟩ (by decide)).2.2.2 rfl
      (by decide)⟩

/-! ## Registration -/

/-- C4: every statement createUser sends to the store is the INSERT into
usuarios (email, senha, funcionario_id) whose second parameter, the password
column, is the output of the hash function on the submitted password with cost
10; the plaintext is not what is passed for that column, so for any hash
function whose output differs from its input the stored password differs from
the plaintext. -/
theorem createUser_stores_hash (w : World) (req : Request) (sql : String) (ps : List JsVal)
    (res : Except JsVal JsVal) (hq : Call.query sql ps res ∈ (createUser w req).calls) :
    ∃ email senha funcionario_id hashed,
      getProp req.body "email" = .ok email ∧ getProp req.body "senha" = .ok senha ∧
      getProp req.body "funcionario_id" = .ok funcionario_id ∧
      w.hash senha 10 = .ok hashed ∧
      sql = sqlInsertUsuario ∧ ps = [email, str hashed, funcionario_id] ∧
      ((∀ data out, w.hash data 10 = .ok out → str out ≠ data) → str hashed ≠ senha) := by
  simp only [createUser, dbQuery, bcryptHash, Eff.lift_bind, Eff.call_bind] at hq ⊢
  revert hq
  repeat' split
  all_goals intro hq
  all_goals simp [Eff.tryCatch_after, Eff.after, Eff.tryCatch, Pure.pure, Eff.pure,
      serverError] at hq ⊢
  all_goals (try simp_all)

/-- Witness for C4: a registration that reaches the store. -/
theorem createUser_stores_hash_witness :
    Call.query sqlInsertUsuario
        [str "joao.silva@example.com", str "$2a$10$SenhaForte123!", num 15]
        (.ok sampleInsertResult) ∈
      (createUser (sampleWorld (.ok sampleInsertResult) true) sampleRegistration).calls ∧
    (∀ data out, (sampleWorld (.ok sampleInsertResult) true).hash data 10 = .ok out →
      str out ≠ data) ∧
    ∃ email senha funcionario_id hashed,
      getProp sampleRegistration.body "email" = .ok email ∧
      getProp sampleRegistration.body "senha" = .ok senha ∧
      getProp sampleRegistration.body "funcionario_id" = .ok funcionario_id ∧
      (sampleWorld (.ok sampleInsertResult) true).hash senha 10 = .ok hashed ∧
      sqlInsertUsuario = sqlInsertUsuario ∧
      [str "joao.silva@example.com", str "$2a$10$SenhaForte123!", num 15] =
        [email, str hashed, funcionario_id] ∧
      ((∀ data out, (sampleWorld (.ok sampleInsertResult) true).hash data 10 = .ok out →
        str out ≠ data) → str hashed ≠ senha) :=
  ⟨List.Mem.tail _ (List.Mem.head _),
    (by
      intro data out h heq
      subst heq
      simp only [sampleWorld, Except.ok.injEq] at h
      have hl := congrArg String.length h
      simp only [String.length_append] at hl
      have h7 : "$2a$10$".length = 7 := rfl
      omega),
    createUser_stores_hash (sampleWorld (.ok sampleInsertResult) true) sampleRegistration _ _ _
      (List.Mem.tail _ (List.Mem.head _))⟩

/-- C5: when email, senha or funcionario_id is missing from the body (reads
as `undefined`), createUser answers 400 "Preencha todos os campos obrigatórios."
and makes no call at all, neither a hash nor a store statement; when the hash
and the insert of a run succeed, it answers 201 with exactly the store's insert
id and the submitted email. -/
theorem createUser_validation (w : World) (req : Request) :
    (∀ email senha funcionario_id,
      getProp req.body "email" = .ok email → getProp req.body "senha" = .ok senha →
      getProp req.body "funcionario_id" = .ok funcionario_id →
      email = undefined ∨ senha = undefined ∨ funcionario_id = undefined →
      createUser w req =
        ⟨[], .ok ⟨400, obj [("error", str "Preencha todos os campos obrigatórios.")]⟩⟩) ∧
    (∀ data cost hashed sql ps res id email,
      Call.hash data cost (.ok hashed) ∈ (createUser w req).calls →
      Call.query sql ps (.ok res) ∈ (createUser w req).calls →
      getProp res "insertId" = .ok id → getProp req.body "email" = .ok email →
      (createUser w req).result = .ok ⟨201, obj [("id", id), ("email", email)]⟩) := by
  refine ⟨?_, ?_⟩
  · intro email senha funcionario_id he hs hf hmiss
    simp only [createUser, Eff.lift_bind, he, hs, hf]
    rcases hmiss with rfl | rfl | rfl <;> simp [truthy] <;> rfl
  · intro data cost hashed sql ps res id email hh hq hid he
    simp only [createUser, dbQuery, bcryptHash, Eff.lift_bind, Eff.call_bind] at hh hq ⊢
    revert hh hq
    repeat' split
    all_goals intro hh hq
    all_goals simp [Eff.tryCatch_after, Eff.after, Eff.tryCatch, Pure.pure, Eff.pure,
      serverError] at hh hq ⊢
    all_goals (try simp_all)

/-- Witness for C5: a body without senha and funcionario_id, and a complete
registration. -/
theorem createUser_validation_witness :
    createUser (sampleWorld (.ok sampleInsertResult) true)
        ⟨obj [("email", str "joao.silva@example.com")], obj []⟩ =
      ⟨[], .ok ⟨400, obj [("error", str "Preencha todos os campos obrigatórios.")]⟩⟩ ∧
    Call.hash (str "SenhaForte123!") 10 (.ok "$2a$10$SenhaForte123!") ∈
      (createUser (sampleWorld (.ok sampleInsertResult) true) sampleRegistration).calls ∧
    Call.query sqlInsertUsuario
        [str "joao.silva@example.com", str "$2a$10$SenhaForte123!", num 15]
        (.ok sampleInsertResult) ∈
      (createUser (sampleWorld (.ok sampleInsertResult) true) sampleRegistration).calls ∧
    (createUser (sampleWorld (.ok sampleInsertResult) true) sampleRegistration).result =
      .ok ⟨201, obj [("id", num 7), ("email", str "joao.silva@example.com")]⟩ :=
  ⟨(createUser_validation (sampleWorld (.ok sampleInsertResult) true)
      ⟨obj [("email", str "joao.silva@example.com")], obj []⟩).1
      (str "joao.silva@example.com") undefined undefined rfl rfl rfl (Or.inr (Or.inl rfl)),
    List.Mem.head _, List.Mem.tail _ (List.Mem.head _),
    (createUser_validation (sampleWorld (.ok sampleInsertResult) true) sampleRegistration).2
      _ _ _ _ _ _ (num 7) (str "joao.silva@example.com")
      (List.Mem.head _) (List.Mem.tail _ (List.Mem.head _)) rfl rfl⟩

/-! ## Route tables -/

/-- C6: in the route tables the guard `authenticate` stands before the
handler on every route under /api/funcionarios and on GET /api/usuarios and
DELETE /api/usuarios/:id, and on no other route; the routes are the nine listed,
each ending in its controller handler. Hence POST /api/usuarios and POST
/api/usuarios/login run their handlers whatever the guard would do, and on a
guarded route the handler runs only on the request the guard passed on. -/
theorem route_guards :
    (∀ p ∈ appRoutes,
      (p.1 = "/api/funcionarios" ∨
        (p.1 = "/api/usuarios" ∧
          ((p.2.method = .GET ∧ p.2.path = "/") ∨ (p.2.method = .DELETE ∧ p.2.path = "/:id"))) →
        ∃ h, p.2.stack = [Layer.authenticate, Layer.handler h]) ∧
      (¬ (p.1 = "/api/funcionarios" ∨
        (p.1 = "/api/usuarios" ∧
          ((p.2.method = .GET ∧ p.2.path = "/") ∨ (p.2.method = .DELETE ∧ p.2.path = "/:id")))) →
        ∃ h, p.2.stack = [Layer.handler h])) ∧
    appRoutes.map (fun p => (p.1, p.2.method, p.2.path, p.2.stack.getLast?)) =
      [ ("/api/usuarios", .POST, "/", some (.handler .createUser)),
        ("/api/usuarios", .POST, "/login", some (.handler .login)),
        ("/api/usuarios", .GET, "/", some (.handler .getAllUsers)),
        ("/api/usuarios", .DELETE, "/:id", some (.handler .deleteUser)),
        ("/api/funcionarios", .POST, "/", some (.handler .createFuncionario)),
        ("/api/funcionarios", .GET, "/", some (.handler .getAllFuncionarios)),
        ("/api/funcionarios", .GET, "/:id", some (.handler .getFuncionarioById)),
        ("/api/funcionarios", .PUT, "/:id", some (.handler .updateFuncionario)),
        ("/api/funcionarios", .DELETE, "/:id", some (.handler .deleteFuncionario)) ] ∧
    (∀ p ∈ appRoutes, ∀ (authenticate : Request → Except Response Request) (w : World)
        (req : Request),
      (Layer.authenticate ∉ p.2.stack →
        ∃ h, p.2.stack.getLast? = some (.handler h) ∧
          runStack authenticate w p.2.stack req = some (h.run w req)) ∧
      (Layer.authenticate ∈ p.2.stack →
        ∃ h, p.2.stack.getLast? = some (.handler h) ∧
          (∀ resp, authenticate req = .error resp →
            runStack authenticate w p.2.stack req = some (Eff.pure resp)) ∧
          (∀ req2, authenticate req = .ok req2 →
            runStack authenticate w p.2.stack req = some (h.run w req2)))) := by
  refine ⟨?_, ?_, ?_⟩
  · simp [appRoutes, usuariosRouter, funcionariosRouter]
  · rfl
  · intro p hp authenticate w req
    simp only [appRoutes, usuariosRouter, funcionariosRouter, List.map, List.cons_append,
      List.nil_append, List.mem_cons, List.mem_singleton, List.not_mem_nil, or_false] at hp
    rcases hp with rfl | rfl | rfl | rfl | rfl | rfl | rfl | rfl | rfl <;>
      simp [runStack] <;>
      exact ⟨fun _ h => by simp [h], fun _ h => by simp [h]⟩

/-! ## Employees -/

/-- C7, as stated, fails: with nome "Ana" and cargo_id 0 both fields are in
the body, yet createFuncionario answers 400 and sends no INSERT, where the claim
has it issue exactly one insert. -/
theorem createFuncionario_rejects_zero_cargo :
    getProp (obj [("nome", str "Ana"), ("cargo_id", num 0)]) "nome" = .ok (str "Ana") ∧
    getProp (obj [("nome", str "Ana"), ("cargo_id", num 0)]) "cargo_id" = .ok (num 0) ∧
    createFuncionario (sampleWorld (.ok sampleInsertResult) true)
        ⟨obj [("nome", str "Ana"), ("cargo_id", num 0)], obj []⟩ =
      ⟨[], .ok ⟨400, obj [("error", str "Nome e cargo são obrigatórios.")]⟩⟩ :=
  ⟨rfl, rfl, rfl⟩

/-- C7, amended: for every create-employee request with a body, if nome or
cargo_id is missing or falsy (empty string, 0, null, false) createFuncionario
answers 400 "Nome e cargo são obrigatórios." and makes no call; otherwise (both
truthy) it makes exactly one call, the INSERT with parameters [nome, cargo_id],
and answers 201 with the store's insert id, nome and cargo_id when the insert
succeeds, 500 "Erro ao criar funcionário." with the error as details when the
insert fails. -/
theorem createFuncionario_responses (w : World) (req : Request) (nome cargo_id : JsVal)
    (hn : getProp req.body "nome" = .ok nome) (hc : getProp req.body "cargo_id" = .ok cargo_id) :
    (nome = undefined ∨ cargo_id = undefined ∨ nome.truthy = false ∨ cargo_id.truthy = false →
      createFuncionario w req =
        ⟨[], .ok ⟨400, obj [("error", str "Nome e cargo são obrigatórios.")]⟩⟩) ∧
    (nome.truthy = true → cargo_id.truthy = true →
      (createFuncionario w req).calls =
        [Call.query sqlInsertFuncionario [nome, cargo_id]
          (w.query sqlInsertFuncionario [nome, cargo_id])] ∧
      (∀ res id, w.query sqlInsertFuncionario [nome, cargo_id] = .ok res →
        getProp res "insertId" = .ok id →
        (createFuncionario w req).result =
          .ok ⟨201, obj [("id", id), ("nome", nome), ("cargo_id", cargo_id)]⟩) ∧
      (∀ err, w.query sqlInsertFuncionario [nome, cargo_id] = .error err →
        (createFuncionario w req).result =
          .ok ⟨500, obj [("error", str "Erro ao criar funcionário."), ("details", err)]⟩)) := by
  refine ⟨?_, ?_⟩
  · intro hmiss
    simp only [createFuncionario, Eff.lift_bind, hn, hc]
    rcases hmiss with rfl | rfl | h | h
    · simp [truthy]; rfl
    · simp [truthy]; rfl
    · simp [h]; rfl
    · simp [h]; rfl
  · intro htn htc
    simp only [createFuncionario, Eff.lift_bind, hn, hc, dbQuery, Eff.call_bind]
    refine ⟨?_, ?_, ?_⟩
    · cases hq : w.query sqlInsertFuncionario [nome, cargo_id] with
      | error e => simp [htn, htc, Eff.tryCatch]
      | ok res =>
        cases hid : getProp res "insertId" <;>
          simp [htn, htc, hid, Eff.tryCatch, Eff.after, Pure.pure, Eff.pure]
    · intro res id hq hid
      simp [htn, htc, hq, hid, Eff.tryCatch, Eff.after, Pure.pure, Eff.pure]
    · intro err hq
      simp [htn, htc, hq, Eff.tryCatch, serverError, errorBody]

/-- Witness for the amended C7: an empty name, a valid creation and a
foreign-key failure. -/
theorem createFuncionario_responses_witness :
    createFuncionario (sampleWorld (.ok sampleInsertResult) true)
        ⟨obj [("nome", str ""), ("cargo_id", num 1)], obj []⟩ =
      ⟨[], .ok ⟨400, obj [("error", str "Nome e cargo são obrigatórios.")]⟩⟩ ∧
    (createFuncionario (sampleWorld (.ok sampleInsertResult) true)
        ⟨obj [("nome", str "Ana"), ("cargo_id", num 1)], obj []⟩).calls =
      [Call.query sqlInsertFuncionario [str "Ana", num 1] (.ok sampleInsertResult)] ∧
    (createFuncionario (sampleWorld (.ok sampleInsertResult) true)
        ⟨obj [("nome", str "Ana"), ("cargo_id", num 1)], obj []⟩).result =
      .ok ⟨201, obj [("id", num 7), ("nome", str "Ana"), ("cargo_id", num 1)]⟩ ∧
    (createFuncionario (sampleWorld (.error (str "ER_NO_REFERENCED_ROW_2")) true)
        ⟨obj [("nome", str "Ana"), ("cargo_id", num 99)], obj []⟩).result =
      .ok ⟨500, obj [("error", str "Erro ao criar funcionário."),
        ("details", str "ER_NO_REFERENCED_ROW_2")]⟩ :=
  ⟨(createFuncionario_responses (sampleWorld (.ok sampleInsertResult) true)
      ⟨obj [("nome", str ""), ("cargo_id", num 1)], obj []⟩ (str "") (num 1) rfl rfl).1
      (Or.inr (Or.inr (Or.inl rfl))),
    ((createFuncionario_responses (sampleWorld (.ok sampleInsertResult) true)
      ⟨obj [("nome", str "Ana"), ("cargo_id", num 1)], obj []⟩ (str "Ana") (num 1) rfl rfl).2
      rfl rfl).1,
    ((createFuncionario_responses (sampleWorld (.ok sampleInsertResult) true)
      ⟨obj [("nome", str "Ana"), ("cargo_id", num 1)], obj []⟩ (str "Ana") (num 1) rfl rfl).2
      rfl rfl).2.1 sampleInsertResult (num 7) rfl rfl,
    ((createFuncionario_responses (sampleWorld (.error (str "ER_NO_REFERENCED_ROW_2")) true)
      ⟨obj [("nome", str "Ana"), ("cargo_id", num 99)], obj []⟩ (str "Ana") (num 99) rfl rfl).2
      rfl rfl).2.2 _ rfl⟩

/-- C8: whenever the lookup of getFuncionarioById completes without error,
returning the rows `rows` for the parameter list holding the id of the path, the
response is 404 "Funcionário não encontrado" if and only if `rows` is empty, and
otherwise it is 200 with the first returned row as the body, unchanged (the row
the store built for `SELECT f.id, f.nome, c.nome AS cargo ... LEFT JOIN`). -/
theorem getFuncionarioById_responses (w : World) (req : Request) (ps rows : List JsVal)
    (hq : Call.query sqlSelectFuncionarioById ps (.ok (arr rows)) ∈
      (getFuncionarioById w req).calls) :
    (∃ id, getProp req.params "id" = .ok id ∧ ps = [id]) ∧
    ((getFuncionarioById w req).result =
        .ok ⟨404, obj [("error", str "Funcionário não encontrado")]⟩ ↔ rows = []) ∧
    (∀ r, (getFuncionarioById w req).result = .ok r → r.status = 404 → rows = []) ∧
    (∀ row rest, rows = row :: rest → (getFuncionarioById w req).result = .ok ⟨200, row⟩) := by
  simp only [getFuncionarioById, dbQuery, Eff.lift_bind, Eff.call_bind] at hq ⊢
  revert hq
  repeat' split
  all_goals intro hq
  all_goals simp_all [Eff.tryCatch_after, Eff.after, Eff.tryCatch, Pure.pure, Eff.pure,
      serverError]
  all_goals obtain ⟨rfl, rfl⟩ := hq
  all_goals cases rows <;> simp_all
  all_goals (try subst_vars)
  all_goals (try simp_all)
  omega

/-- Witness for C8: an id that matches no row and one that matches a row. -/
theorem getFuncionarioById_responses_witness :
    (Call.query sqlSelectFuncionarioById [str "7"] (.ok (arr [])) ∈
        (getFuncionarioById (sampleWorld (.ok (arr [])) true) sampleById).calls ∧
      (getFuncionarioById (sampleWorld (.ok (arr [])) true) sampleById).result =
        .ok ⟨404, obj [("error", str "Funcionário não encontrado")]⟩) ∧
    (Call.query sqlSelectFuncionarioById [str "7"] (.ok (arr [sampleFuncionario])) ∈
        (getFuncionarioById (sampleWorld (.ok (arr [sampleFuncionario])) true) sampleById).calls ∧
      (getFuncionarioById (sampleWorld (.ok (arr [sampleFuncionario])) true) sampleById).result =
        .ok ⟨200, sampleFuncionario⟩) :=
  ⟨⟨List.Mem.head _,
      (getFuncionarioById_responses (sampleWorld (.ok (arr [])) true) sampleById _ _
        (List.Mem.head _)).2.1.2 rfl⟩,
    ⟨List.Mem.head _,
      (getFuncionarioById_responses (sampleWorld (.ok (arr [sampleFuncionario])) true) sampleById
        _ _ (List.Mem.head _)).2.2.2 _ _ rfl⟩⟩

/-- C9: updateFuncionario, deleteFuncionario and deleteUser send only their
own UPDATE or DELETE, no lookup; whenever that statement completes without error,
whatever the store reports about matched rows, the response is 200 with the
fixed success message; none of them ever answers 404. -/
theorem no_existence_check (w : World) (req : Request) :
    (∀ ps res, Call.query sqlUpdateFuncionario ps (.ok res) ∈ (updateFuncionario w req).calls →
      (updateFuncionario w req).result =
        .ok ⟨200, obj [("message", str "Funcionário atualizado com sucesso.")]⟩) ∧
    (∀ ps res, Call.query sqlDeleteFuncionario ps (.ok res) ∈ (deleteFuncionario w req).calls →
      (deleteFuncionario w req).result =
        .ok ⟨200, obj [("message", str "Funcionário excluído com sucesso.")]⟩) ∧
    (∀ ps res, Call.query sqlDeleteUsuario ps (.ok res) ∈ (deleteUser w req).calls →
      (deleteUser w req).result =
        .ok ⟨200, obj [("message", str "Usuário excluído com sucesso.")]⟩) ∧
    (∀ c ∈ (updateFuncionario w req).calls, ∃ ps res, c = Call.query sqlUpdateFuncionario ps res) ∧
    (∀ c ∈ (deleteFuncionario w req).calls, ∃ ps res, c = Call.query sqlDeleteFuncionario ps res) ∧
    (∀ c ∈ (deleteUser w req).calls, ∃ ps res, c = Call.query sqlDeleteUsuario ps res) ∧
    (∀ r, (updateFuncionario w req).result = .ok r → r.status ≠ 404) ∧
    (∀ r, (deleteFuncionario w req).result = .ok r → r.status ≠ 404) ∧
    (∀ r, (deleteUser w req).result = .ok r → r.status ≠ 404) := by
  simp only [updateFuncionario, deleteFuncionario, deleteUser, dbQuery, Eff.lift_bind,
    Eff.call_bind]
  refine ⟨?_, ?_, ?_, ?_, ?_, ?_, ?_, ?_, ?_⟩
  all_goals repeat' split
  all_goals simp_all [Eff.tryCatch_after, Eff.after, Eff.tryCatch, Pure.pure, Eff.pure,
      serverError]

/-- Witness for C9: an id that matches no row (zero affected rows). -/
theorem no_existence_check_witness :
    (Call.query sqlUpdateFuncionario [str "Ana", num 1, str "7"] (.ok sampleNoMatch) ∈
        (updateFuncionario (sampleWorld (.ok sampleNoMatch) true)
          ⟨obj [("nome", str "Ana"), ("cargo_id", num 1)], obj [("id", str "7")]⟩).calls ∧
      (updateFuncionario (sampleWorld (.ok sampleNoMatch) true)
          ⟨obj [("nome", str "Ana"), ("cargo_id", num 1)], obj [("id", str "7")]⟩).result =
        .ok ⟨200, obj [("message", str "Funcionário atualizado com sucesso.")]⟩) ∧
    (Call.query sqlDeleteFuncionario [str "7"] (.ok sampleNoMatch) ∈
        (deleteFuncionario (sampleWorld (.ok sampleNoMatch) true) sampleById).calls ∧
      (deleteFuncionario (sampleWorld (.ok sampleNoMatch) true) sampleById).result =
        .ok ⟨200, obj [("message", str "Funcionário excluído com sucesso.")]⟩) ∧
    (Call.query sqlDeleteUsuario [str "7"] (.ok sampleNoMatch) ∈
        (deleteUser (sampleWorld (.ok sampleNoMatch) true) sampleById).calls ∧
      (deleteUser (sampleWorld (.ok sampleNoMatch) true) sampleById).result =
        .ok ⟨200, obj [("message", str "Usuário excluído com sucesso.")]⟩) :=
  ⟨⟨List.Mem.head _,
      (no_existence_check (sampleWorld (.ok sampleNoMatch) true)
        ⟨obj [("nome", str "Ana"), ("cargo_id", num 1)], obj [("id", str "7")]⟩).1 _ _
        (List.Mem.head _)⟩,
    ⟨List.Mem.head _,
      (no_existence_check (sampleWorld (.ok sampleNoMatch) true) sampleById).2.1 _ _
        (List.Mem.head _)⟩,
    ⟨List.Mem.head _,
      (no_existence_check (sampleWorld (.ok sampleNoMatch) true) sampleById).2.2.1 _ _
        (List.Mem.head _)⟩⟩

/-! ## Failures and 500 responses -/

theorem getProp_of_present (v : JsVal) (k : String) (h1 : v ≠ undefined) (h2 : v ≠ null) :
    ∃ x, getProp v k = .ok x := by
  cases v <;> simp [getProp] at *

theorem createUser_answers (w : World) (req : Request)
    (hb1 : req.body ≠ undefined) (hb2 : req.body ≠ null) :
    Eff.AnswersFailures "Erro ao criar usuário." (createUser w req) := by
  obtain ⟨x1, h1⟩ := getProp_of_present req.body "email" hb1 hb2
  obtain ⟨x2, h2⟩ := getProp_of_present req.body "senha" hb1 hb2
  obtain ⟨x3, h3⟩ := getProp_of_present req.body "funcionario_id" hb1 hb2
  simp only [Eff.AnswersFailures, createUser, dbQuery, bcryptHash,
    Eff.lift_bind, Eff.call_bind, h1, h2, h3]
  refine ⟨?_, ?_, ?_⟩
  all_goals repeat' split
  all_goals simp_all [Eff.tryCatch_after, Eff.after, Eff.tryCatch, Pure.pure, Eff.pure,
    serverError, errorBody, Call.failure]

theorem login_answers (w : World) (req : Request)
    (hb1 : req.body ≠ undefined) (hb2 : req.body ≠ null) :
    Eff.AnswersFailures "Erro ao realizar login." (login w req) := by
  obtain ⟨x1, h1⟩ := getProp_of_present req.body "email" hb1 hb2
  obtain ⟨x2, h2⟩ := getProp_of_present req.body "senha" hb1 hb2
  simp only [Eff.AnswersFailures, login, dbQuery, bcryptCompare, jwtSign,
    Eff.lift_bind, Eff.call_bind, h1, h2]
  refine ⟨?_, ?_, ?_⟩
  all_goals repeat' split
  all_goals simp_all [Eff.tryCatch_after, Eff.after, Eff.tryCatch, Pure.pure, Eff.pure,
    serverError, errorBody, Call.failure]

theorem getAllUsers_answers (w : World) (req : Request) :
    Eff.AnswersFailures "Erro ao buscar usuários." (getAllUsers w req) := by
  simp only [Eff.AnswersFailures, getAllUsers, dbQuery,
    Eff.lift_bind, Eff.call_bind]
  refine ⟨?_, ?_, ?_⟩
  all_goals repeat' split
  all_goals simp_all [Eff.tryCatch_after, Eff.after, Eff.tryCatch, Pure.pure, Eff.pure,
    serverError, errorBody, Call.failure]

theorem deleteUser_answers (w : World) (req : Request)
    (hp1 : req.params ≠ undefined) (hp2 : req.params ≠ null) :
    Eff.AnswersFailures "Erro ao excluir usuário." (deleteUser w req) := by
  obtain ⟨x1, h1⟩ := getProp_of_present req.params "id" hp1 hp2
  simp only [Eff.AnswersFailures, deleteUser, dbQuery,
    Eff.lift_bind, Eff.call_bind, h1]
  refine ⟨?_, ?_, ?_⟩
  all_goals repeat' split
  all_goals simp_all [Eff.tryCatch_after, Eff.after, Eff.tryCatch, Pure.pure, Eff.pure,
    serverError, errorBody, Call.failure]

theorem createFuncionario_answers (w : World) (req : Request)
    (hb1 : req.body ≠ undefined) (hb2 : req.body ≠ null) :
    Eff.AnswersFailures "Erro ao criar funcionário." (createFuncionario w req) := by
  obtain ⟨x1, h1⟩ := getProp_of_present req.body "nome" hb1 hb2
  obtain ⟨x2, h2⟩ := getProp_of_present req.body "cargo_id" hb1 hb2
  simp only [Eff.AnswersFailures, createFuncionario, dbQuery,
    Eff.lift_bind, Eff.call_bind, h1, h2]
  refine ⟨?_, ?_, ?_⟩
  all_goals repeat' split
  all_goals simp_all [Eff.tryCatch_after, Eff.after, Eff.tryCatch, Pure.pure, Eff.pure,
    serverError, errorBody, Call.failure]

theorem getAllFuncionarios_answers (w : World) (req : Request) :
    Eff.AnswersFailures "Erro ao buscar funcionários." (getAllFuncionarios w req) := by
  simp only [Eff.AnswersFailures, getAllFuncionarios, dbQuery,
    Eff.lift_bind, Eff.call_bind]
  refine ⟨?_, ?_, ?_⟩
  all_goals repeat' split
  all_goals simp_all [Eff.tryCatch_after, Eff.after, Eff.tryCatch, Pure.pure, Eff.pure,
    serverError, errorBody, Call.failure]

theorem getFuncionarioById_answers (w : World) (req : Request)
    (hp1 : req.params ≠ undefined) (hp2 : req.params ≠ null) :
    Eff.AnswersFailures "Erro ao buscar funcionário." (getFuncionarioById w req) := by
  obtain ⟨x1, h1⟩ := getProp_of_present req.params "id" hp1 hp2
  simp only [Eff.AnswersFailures, getFuncionarioById, dbQuery,
    Eff.lift_bind, Eff.call_bind, h1]
  refine ⟨?_, ?_, ?_⟩
  all_goals repeat' split
  all_goals simp_all [Eff.tryCatch_after, Eff.after, Eff.tryCatch, Pure.pure, Eff.pure,
    serverError, errorBody, Call.failure]

theorem updateFuncionario_answers (w : World) (req : Request)
    (hb1 : req.body ≠ undefined) (hb2 : req.body ≠ null)
    (hp1 : req.params ≠ undefined) (hp2 : req.params ≠ null) :
    Eff.AnswersFailures "Erro ao atualizar funcionário." (updateFuncionario w req) := by
  obtain ⟨x1, h1⟩ := getProp_of_present req.params "id" hp1 hp2
  obtain ⟨x2, h2⟩ := getProp_of_present req.body "nome" hb1 hb2
  obtain ⟨x3, h3⟩ := getProp_of_present req.body "cargo_id" hb1 hb2
  simp only [Eff.AnswersFailures, updateFuncionario, dbQuery,
    Eff.lift_bind, Eff.call_bind, h1, h2, h3]
  refine ⟨?_, ?_, ?_⟩
  all_goals repeat' split
  all_goals simp_all [Eff.tryCatch_after, Eff.after, Eff.tryCatch, Pure.pure, Eff.pure,
    serverError, errorBody, Call.failure]

theorem deleteFuncionario_answers (w : World) (req : Request)
    (hp1 : req.params ≠ undefined) (hp2 : req.params ≠ null) :
    Eff.AnswersFailures "Erro ao excluir funcionário." (deleteFuncionario w req) := by
  obtain ⟨x1, h1⟩ := getProp_of_present req.params "id" hp1 hp2
  simp only [Eff.AnswersFailures, deleteFuncionario, dbQuery,
    Eff.lift_bind, Eff.call_bind, h1]
  refine ⟨?_, ?_, ?_⟩
  all_goals repeat' split
  all_goals simp_all [Eff.tryCatch_after, Eff.after, Eff.tryCatch, Pure.pure, Eff.pure,
    serverError, errorBody, Call.failure]

/-- C10, as stated, fails: a registration request whose body is absent
makes createUser reject (the destructuring of `req.body` stands before the `try`
block and throws a TypeError); no response is sent. -/
theorem createUser_rejects_without_body :
    createUser (sampleWorld (.ok sampleInsertResult) true) ⟨undefined, obj []⟩ =
      ⟨[], .error (typeError "email")⟩ ∧
    ∀ r, (createUser (sampleWorld (.ok sampleInsertResult) true) ⟨undefined, obj []⟩).result ≠
      .ok r :=
  ⟨rfl, fun _ h => Except.noConfusion h⟩

/-- C10, amended: for each of the nine handlers and every request whose body
and route parameters are present (neither `undefined` nor `null`), the handler
does not throw or reject but sends a response; if a call it made (store query,
password hashing or comparison, token signing) failed with an error, the
response is 500 with the handler's message as `error` and that error as
`details`; and every 500 it sends has this shape. -/
theorem handlers_answer_500 (h : HandlerName) (w : World) (req : Request)
    (hb1 : req.body ≠ undefined) (hb2 : req.body ≠ null)
    (hp1 : req.params ≠ undefined) (hp2 : req.params ≠ null) :
    (∃ r, (h.run w req).result = .ok r) ∧
    (∀ c ∈ (h.run w req).calls, ∀ err, c.failure = some err →
      (h.run w req).result =
        .ok ⟨500, obj [("error", str h.errorMessage), ("details", err)]⟩) ∧
    (∀ r, (h.run w req).result = .ok r → r.status = 500 →
      ∃ err, r.body = obj [("error", str h.errorMessage), ("details", err)]) := by
  cases h
  · exact createUser_answers w req hb1 hb2
  · exact login_answers w req hb1 hb2
  · exact getAllUsers_answers w req
  · exact deleteUser_answers w req hp1 hp2
  · exact createFuncionario_answers w req hb1 hb2
  · exact getAllFuncionarios_answers w req
  · exact getFuncionarioById_answers w req hp1 hp2
  · exact updateFuncionario_answers w req hb1 hb2 hp1 hp2
  · exact deleteFuncionario_answers w req hp1 hp2

/-- Witness for the amended C10: a registration whose INSERT the store
rejects. -/
theorem handlers_answer_500_witness :
    (HandlerName.createUser.run duplicateEntryWorld sampleRegistration).result =
      .ok ⟨500, obj [("error", str "Erro ao criar usuário."),
        ("details", obj [("code", str "ER_DUP_ENTRY"), ("errno", num 1062),
          ("sqlState", str "23000"),
          ("sql", str "INSERT INTO usuarios (email, senha, funcionario_id) VALUES (\x27joao.silva@example.com\x27, \x27$2a$10$SenhaForte123!\x27, 15)")])]⟩ :=
  (handlers_answer_500 .createUser duplicateEntryWorld sampleRegistration
    (fun h => JsVal.noConfusion h) (fun h => JsVal.noConfusion h)
    (fun h => JsVal.noConfusion h) (fun h => JsVal.noConfusion h)).2.1 _
    (List.Mem.tail _ (List.Mem.head _)) _ rfl

/-! ## Listings -/

theorem filter_eq_find_toList {β : Type} (key : β → Int) (x : Option Int) (r : List β)
    (h : (r.map key).Nodup) :
    r.filter (fun b => x == some (key b)) = (r.find? (fun b => x == some (key b))).toList := by
  induction r with
  | nil => rfl
  | cons b bs ih =>
    simp only [List.map_cons, List.nodup_cons] at h
    by_cases hb : (x == some (key b)) = true
    · have hx : x = some (key b) := by simpa using hb
      have hnone : bs.filter (fun c => x == some (key c)) = [] := by
        rw [List.filter_eq_nil_iff]
        intro c hc hcx
        have : key c = key b := by
          have h2 : x = some (key c) := by simpa using hcx
          rw [hx] at h2
          exact (Option.some.inj h2).symm
        exact h.1 (this ▸ List.mem_map_of_mem key hc)
      simp [List.filter_cons, List.find?_cons, hb, hnone]
    · simp [List.filter_cons, List.find?_cons, hb, ih h.2]

theorem leftJoin_unique {α β : Type} (key : β → Int) (fk : α → Option Int) (r : List β)
    (h : (r.map key).Nodup) (l : List α) :
    leftJoin (fun a b => fk a == some (key b)) r l =
      l.map (fun a => (a, r.find? (fun b => fk a == some (key b)))) := by
  induction l with
  | nil => rfl
  | cons a rest ih =>
    simp only [leftJoin, List.map_cons, ih]
    rw [filter_eq_find_toList key (fk a) r h]
    cases r.find? (fun b => fk a == some (key b)) <;> rfl

theorem storeWorld_selectFuncionarios (st : Store) (base : World) (ps : List JsVal) :
    (storeWorld st base).query sqlSelectFuncionarios ps = .ok (arr (selectFuncionarios st)) := by
  simp [storeWorld]

theorem storeWorld_selectUsuarios (st : Store) (base : World) (ps : List JsVal) :
    (storeWorld st base).query sqlSelectUsuarios ps = .ok (arr (selectUsuarios st)) := by
  have h : sqlSelectUsuarios ≠ sqlSelectFuncionarios := by decide
  simp [storeWorld, h]

/-- C11: against a store that answers the two listing statements by their
LEFT JOIN, when role ids are unique getAllFuncionarios answers 200 with exactly
one item per employee row, in order, and when employee ids are unique
getAllUsers answers 200 with exactly one item per user row; an employee whose
cargo_id is NULL or matches no role, and a user whose funcionario_id is NULL or
matches no employee, still appears, with the joined name (cargo, funcionario)
null. -/
theorem listings_are_left_joins (st : Store) (base : World) (req : Request) :
    ((st.cargos.map Cargo.id).Nodup →
      ∃ items,
        getAllFuncionarios (storeWorld st base) req =
          ⟨[Call.query sqlSelectFuncionarios [] (.ok (arr items))], .ok ⟨200, arr items⟩⟩ ∧
        items = st.funcionarios.map (fun f =>
          obj [("id", num f.id), ("nome", str f.nome),
            ("cargo", nullable ((cargoOf st f).map Cargo.nome))]) ∧
        items.length = st.funcionarios.length ∧
        ∀ f ∈ st.funcionarios,
          (f.cargo_id = none ∨ ∀ c ∈ st.cargos, f.cargo_id ≠ some c.id) →
          obj [("id", num f.id), ("nome", str f.nome), ("cargo", null)] ∈ items) ∧
    ((st.funcionarios.map Funcionario.id).Nodup →
      ∃ items,
        getAllUsers (storeWorld st base) req =
          ⟨[Call.query sqlSelectUsuarios [] (.ok (arr items))], .ok ⟨200, arr items⟩⟩ ∧
        items = st.usuarios.map (fun u =>
          obj [("id", num u.id), ("email", str u.email),
            ("funcionario", nullable ((funcionarioOf st u).map Funcionario.nome))]) ∧
        items.length = st.usuarios.length ∧
        ∀ u ∈ st.usuarios,
          (u.funcionario_id = none ∨ ∀ f ∈ st.funcionarios, u.funcionario_id ≠ some f.id) →
          obj [("id", num u.id), ("email", str u.email), ("funcionario", null)] ∈ items) := by
  refine ⟨?_, ?_⟩
  · intro hc
    refine ⟨_, ?_, rfl, by simp, ?_⟩
    · simp only [getAllFuncionarios, dbQuery, Eff.call_bind, storeWorld_selectFuncionarios,
        selectFuncionarios, leftJoin_unique Cargo.id Funcionario.cargo_id st.cargos hc,
        List.map_map]
      rfl
    · intro f hf hnull
      have hnone : cargoOf st f = none := by
        unfold cargoOf
        rw [List.find?_eq_none]
        intro c hcm
        rcases hnull with h | h
        · simp [h]
        · simpa using h c hcm
      refine List.mem_map.mpr ⟨f, hf, ?_⟩
      simp [hnone, nullable]
  · intro hf
    refine ⟨_, ?_, rfl, by simp, ?_⟩
    · simp only [getAllUsers, dbQuery, Eff.call_bind, storeWorld_selectUsuarios,
        selectUsuarios, leftJoin_unique Funcionario.id Usuario.funcionario_id st.funcionarios hf,
        List.map_map]
      rfl
    · intro u hu hnull
      have hnone : funcionarioOf st u = none := by
        unfold funcionarioOf
        rw [List.find?_eq_none]
        intro f hfm
        rcases hnull with h | h
        · simp [h]
        · simpa using h f hfm
      refine List.mem_map.mpr ⟨u, hu, ?_⟩
      simp [hnone, nullable]

/-- Witness for C11: a store with an employee without role, an employee and a
user whose reference matches no row. -/
theorem listings_are_left_joins_witness :
    (sampleStore.cargos.map Cargo.id).Nodup ∧
    (getAllFuncionarios (storeWorld sampleStore (sampleWorld (.ok undefined) true))
        sampleLogin).result =
      .ok ⟨200, arr [obj [("id", num 1), ("nome", str "Ana"), ("cargo", str "Gerente")],
        obj [("id", num 2), ("nome", str "Bia"), ("cargo", null)],
        obj [("id", num 3), ("nome", str "Caio"), ("cargo", null)]]⟩ ∧
    (sampleStore.funcionarios.map Funcionario.id).Nodup ∧
    (getAllUsers (storeWorld sampleStore (sampleWorld (.ok undefined) true))
        sampleLogin).result =
      .ok ⟨200, arr [obj [("id", num 7), ("email", str "joao.silva@example.com"),
          ("funcionario", str "Ana")],
        obj [("id", num 8), ("email", str "maria@example.com"), ("funcionario", null)]]⟩ :=
  ⟨by decide,
    by
      obtain ⟨items, h, hi, -⟩ :=
        (listings_are_left_joins sampleStore (sampleWorld (.ok undefined) true) sampleLogin).1
          (by decide)
      rw [h, hi]
      rfl,
    by decide,
    by
      obtain ⟨items, h, hi, -⟩ :=
        (listings_are_left_joins sampleStore (sampleWorld (.ok undefined) true) sampleLogin).2
          (by decide)
      rw [h, hi]
      rfl⟩

/-! ## Schema bootstrap and start-up -/

theorem initDatabase_events_of_ok {σ : Type} (exec : σ → DbCall → Except JsVal σ)
    (env : String → Option String) (s : σ)
    (hok : ∀ e ∈ (initDatabase exec env s).events, e.failed = false) :
    (initDatabase exec env s).events =
      [ .call (.createConnection (env "DB_HOST") (env "DB_USER") (env "DB_PASSWORD")) none,
        .call (.query (.createDatabase true (interpolate (env "DB_NAME")))) none,
        .log ("✅ Banco de dados \x27" ++ interpolate (env "DB_NAME") ++ "\x27 verificado/criado."),
        .call (.changeUser (env "DB_NAME")) none,
        .call (.query (.createTable true cargosTable)) none,
        .call (.query (.createTable true funcionariosTable)) none,
        .call (.query (.createTable true usuariosTable)) none,
        .call .endConnection none,
        .log "✅ Tabelas verificadas/criadas com sucesso!" ] := by
  simp only [initDatabase, initSteps, runSteps] at hok ⊢
  revert hok
  repeat' split
  all_goals intro hok
  all_goals simp_all [BootEvent.failed]

theorem hasTable_append (tables : List TableDef) (t : TableDef) (name : String) :
    hasTable (tables ++ [t]) name = (hasTable tables name || t.name == name) := by
  simp [hasTable, List.any_append]

theorem mysqlExec_preserves (s s2 : MySql) (c : DbCall) (hc : c.additive = true)
    (h : mysqlExec s c = .ok s2) (db : String) (tables : List TableDef)
    (hdb : s.databases db = some tables) :
    ∃ more, s2.databases db = some (tables ++ more) := by
  cases c with
  | createConnection a b d => simp [mysqlExec] at h; subst h; exact ⟨[], by simp [hdb]⟩
  | endConnection =>
    simp only [mysqlExec] at h
    split at h <;> simp at h
    subst h; exact ⟨[], by simp [hdb]⟩
  | changeUser database =>
    simp only [mysqlExec] at h
    repeat' split at h
    all_goals simp at h
    all_goals subst h
    all_goals exact ⟨[], by simp [hdb]⟩
  | query stmt =>
    cases stmt with
    | createDatabase ine name =>
      simp only [DbCall.additive] at hc
      subst hc
      simp only [mysqlExec, mysqlStatement] at h
      repeat' split at h
      all_goals simp at h
      all_goals subst h
      · exact ⟨[], by simp [hdb]⟩
      · rename_i hnone
        have hne : db ≠ name := by
          intro heq; rw [heq, hnone] at hdb; exact Option.noConfusion hdb
        exact ⟨[], by simp [Function.update_noteq hne, hdb]⟩
    | createTable ine table =>
      simp only [DbCall.additive] at hc
      subst hc
      simp only [mysqlExec, mysqlStatement] at h
      repeat' split at h
      all_goals simp at h
      all_goals subst h
      · exact ⟨[], by simp [hdb]⟩
      · rename_i cur current d hsess x tbs htbs h1 h2
        by_cases hd : db = d
        · subst hd
          rw [htbs] at hdb
          cases hdb
          exact ⟨[table], by simp⟩
        · exact ⟨[], by simp [Function.update_noteq hd, hdb]⟩
    | dropDatabase name => simp [DbCall.additive] at hc
    | dropTable name => simp [DbCall.additive] at hc
    | alterTableAdd name col => simp [DbCall.additive] at hc

theorem runSteps_preserves (steps : List BootAction)
    (hadd : ∀ a ∈ steps, a.additive = true) (s : MySql) (db : String) (tables : List TableDef)
    (hdb : s.databases db = some tables) :
    ∃ more, (runSteps mysqlExec steps s).state.databases db = some (tables ++ more) := by
  induction steps generalizing s tables with
  | nil => exact ⟨[], by simp [runSteps, hdb]⟩
  | cons a rest ih =>
    have hrest : ∀ b ∈ rest, b.additive = true := fun b hb => hadd b (List.mem_cons_of_mem _ hb)
    cases a with
    | log text => simpa [runSteps] using ih hrest s tables hdb
    | call c =>
      have hc : c.additive = true := hadd (.call c) (List.mem_cons_self _ _)
      simp only [runSteps]
      cases hx : mysqlExec s c with
      | error err => exact ⟨[], by simp [hdb]⟩
      | ok s2 =>
        obtain ⟨m1, h1⟩ := mysqlExec_preserves s s2 c hc hx db tables hdb
        obtain ⟨m2, h2⟩ := ih hrest s2 (tables ++ m1) h1
        exact ⟨m1 ++ m2, by simpa [List.append_assoc] using h2⟩

theorem initSteps_additive (env : String → Option String) :
    ∀ a ∈ initSteps env, a.additive = true := by
  intro a ha
  simp only [initSteps, List.mem_cons, List.mem_singleton, List.not_mem_nil, or_false] at ha
  rcases ha with rfl | rfl | rfl | rfl | rfl | rfl | rfl | rfl | rfl <;> rfl

theorem initDatabase_state {σ : Type} (exec : σ → DbCall → Except JsVal σ)
    (env : String → Option String) (s : σ) :
    (initDatabase exec env s).state = (runSteps exec (initSteps env) s).state := by
  unfold initDatabase
  split <;> rfl

theorem initDatabase_chain {σ : Type} (exec : σ → DbCall → Except JsVal σ)
    (env : String → Option String) (s : σ)
    (hok : ∀ e ∈ (initDatabase exec env s).events, e.failed = false) :
    ∃ s1 s2 s3 s4 s5 s6 s7,
      exec s (.createConnection (env "DB_HOST") (env "DB_USER") (env "DB_PASSWORD")) = .ok s1 ∧
      exec s1 (.query (.createDatabase true (interpolate (env "DB_NAME")))) = .ok s2 ∧
      exec s2 (.changeUser (env "DB_NAME")) = .ok s3 ∧
      exec s3 (.query (.createTable true cargosTable)) = .ok s4 ∧
      exec s4 (.query (.createTable true funcionariosTable)) = .ok s5 ∧
      exec s5 (.query (.createTable true usuariosTable)) = .ok s6 ∧
      exec s6 .endConnection = .ok s7 ∧
      (initDatabase exec env s).state = s7 := by
  simp only [initDatabase, initSteps, runSteps] at hok ⊢
  revert hok
  repeat' split
  all_goals intro hok
  all_goals simp_all [BootEvent.failed]

theorem createTable_ok (s s2 : MySql) (t : TableDef)
    (h : mysqlExec s (.query (.createTable true t)) = .ok s2) :
    ∃ db tables tables2, s.session = some (some db) ∧ s2.session = some (some db) ∧
      s.databases db = some tables ∧ s2.databases db = some tables2 ∧
      hasTable tables2 t.name = true ∧
      ∀ n, hasTable tables n = true → hasTable tables2 n = true := by
  simp only [mysqlExec] at h
  cases hsess : s.session with
  | none => simp [hsess] at h
  | some cur =>
    cases cur with
    | none => simp [hsess, mysqlStatement] at h
    | some d =>
      cases hd : s.databases d with
      | none => simp [hsess, mysqlStatement, hd] at h
      | some tbs =>
        simp only [hsess, mysqlStatement, hd] at h
        split at h
        · rename_i hx
          simp at h
          subst h
          exact ⟨d, tbs, tbs, rfl, hsess, hd, hd, hx, fun _ hn => hn⟩
        · split at h
          · simp at h
            subst h
            refine ⟨d, tbs, tbs ++ [t], rfl, rfl, hd, by simp, ?_, ?_⟩
            · simp [hasTable_append]
            · intro n hn
              simp [hasTable_append, hn]
          · simp at h

theorem initDatabase_mysql_bootstraps (env : String → Option String) (s : MySql)
    (hok : ∀ e ∈ (initDatabase mysqlExec env s).events, e.failed = false) :
    ∃ db, env "DB_NAME" = some db ∧ (initDatabase mysqlExec env s).state.bootstrapped db := by
  obtain ⟨s1, s2, s3, s4, s5, s6, s7, h1, h2, h3, h4, h5, h6, h7, hfin⟩ :=
    initDatabase_chain mysqlExec env s hok
  obtain ⟨d4, t3, t4, hs3, hs4, hd3, hd4, hc4, -⟩ := createTable_ok s3 s4 cargosTable h4
  obtain ⟨d5, t4b, t5, hs4b, hs5, hd4b, hd5, hc5, hm5⟩ :=
    createTable_ok s4 s5 funcionariosTable h5
  obtain ⟨d6, t5b, t6, hs5b, hs6, hd5b, hd6, hc6, hm6⟩ :=
    createTable_ok s5 s6 usuariosTable h6
  have e45 : d5 = d4 := by rw [hs4] at hs4b; simpa using hs4b.symm
  have e56 : d6 = d5 := by rw [hs5] at hs5b; simpa using hs5b.symm
  subst e56
  subst e45
  rw [hd4] at hd4b
  rw [hd5] at hd5b
  cases hd4b
  cases hd5b
  have hname : env "DB_NAME" = some d6 := by
    simp only [mysqlExec] at h3
    repeat' split at h3
    all_goals simp at h3
    all_goals subst h3
    all_goals simp_all
  have h7d : s7.databases = s6.databases := by
    simp only [mysqlExec] at h7
    split at h7 <;> simp at h7
    subst h7
    rfl
  refine ⟨d6, hname, ?_⟩
  rw [hfin]
  refine ⟨t6, by rw [h7d]; exact hd6, ?_, ?_, hc6⟩
  · exact hm6 _ (hm5 _ hc4)
  · exact hm6 _ hc5

theorem initDatabase_mysql_idempotent (env : String → Option String) (s : MySql) (db : String)
    (hname : env "DB_NAME" = some db) (hb : s.bootstrapped db) :
    (∀ e ∈ (initDatabase mysqlExec env s).events, e.failed = false) ∧
    (initDatabase mysqlExec env s).state.databases = s.databases := by
  obtain ⟨tables, ht, h1, h2, h3⟩ := hb
  have e1 : cargosTable.name = "cargos" := rfl
  have e2 : funcionariosTable.name = "funcionarios" := rfl
  have e3 : usuariosTable.name = "usuarios" := rfl
  simp [initDatabase, initSteps, runSteps, mysqlExec, mysqlStatement, interpolate, hname, ht,
    h1, h2, h3, e1, e2, e3, BootEvent.failed]

theorem initDatabase_calls_additive {σ : Type} (exec : σ → DbCall → Except JsVal σ)
    (env : String → Option String) (s : σ) :
    ∀ c ∈ (initDatabase exec env s).calls, c.additive = true := by
  simp only [initDatabase, initSteps, runSteps, BootRun.calls]
  repeat' split
  all_goals simp_all [DbCall.additive]

/-- C12: on every initDatabase run in which no driver call fails, the calls
are, in this order: connect with no database selected; CREATE DATABASE IF NOT
EXISTS of the target database; switch to it; CREATE TABLE IF NOT EXISTS cargos,
then funcionarios, then usuarios; close the connection. Each table comes after
the table its foreign key references (funcionarios.cargo_id to cargos.id,
usuarios.funcionario_id to funcionarios.id), each has the auto-increment primary
key `id`, and usuarios.email is unique. Every statement of every run is a CREATE
with IF NOT EXISTS, none drops or alters; against a MySQL server every run keeps
each existing database with its tables, a run against a bootstrapped store
succeeds and leaves the schema unchanged, and a run that succeeds leaves the
store bootstrapped, so a second run changes nothing. -/
theorem initDatabase_steps {σ : Type} (exec : σ → DbCall → Except JsVal σ)
    (env : String → Option String) (s : σ) (m : MySql) :
    ((∀ e ∈ (initDatabase exec env s).events, e.failed = false) →
      (initDatabase exec env s).calls =
        [ .createConnection (env "DB_HOST") (env "DB_USER") (env "DB_PASSWORD"),
          .query (.createDatabase true (interpolate (env "DB_NAME"))),
          .changeUser (env "DB_NAME"),
          .query (.createTable true cargosTable),
          .query (.createTable true funcionariosTable),
          .query (.createTable true usuariosTable),
          .endConnection ] ∧
      (initDatabase exec env s).calls.filterMap DbCall.createdTable =
        [cargosTable, funcionariosTable, usuariosTable]) ∧
    ((∀ n t, [cargosTable, funcionariosTable, usuariosTable].get? n = some t →
        ∀ fk ∈ t.foreignKeys, ∃ k u, k < n ∧
          [cargosTable, funcionariosTable, usuariosTable].get? k = some u ∧
          u.name = fk.refTable ∧ ∃ col ∈ u.columns, col.name = fk.refColumn) ∧
      cargosTable.foreignKeys = [] ∧
      funcionariosTable.foreignKeys = [⟨"cargo_id", "cargos", "id"⟩] ∧
      usuariosTable.foreignKeys = [⟨"funcionario_id", "funcionarios", "id"⟩] ∧
      (∀ t ∈ [cargosTable, funcionariosTable, usuariosTable],
        ⟨"id", .int, true, true, false, false⟩ ∈ t.columns) ∧
      ⟨"email", .varchar 100, false, false, true, true⟩ ∈ usuariosTable.columns) ∧
    (∀ c ∈ (initDatabase exec env s).calls, c.additive = true) ∧
    (∀ db tables, m.databases db = some tables →
      ∃ more, (initDatabase mysqlExec env m).state.databases db = some (tables ++ more)) ∧
    (∀ db, env "DB_NAME" = some db → m.bootstrapped db →
      (∀ e ∈ (initDatabase mysqlExec env m).events, e.failed = false) ∧
      (initDatabase mysqlExec env m).state.databases = m.databases) ∧
    ((∀ e ∈ (initDatabase mysqlExec env m).events, e.failed = false) →
      (∃ db, env "DB_NAME" = some db ∧ (initDatabase mysqlExec env m).state.bootstrapped db) ∧
      (∀ e ∈ (initDatabase mysqlExec env (initDatabase mysqlExec env m).state).events,
        e.failed = false) ∧
      (initDatabase mysqlExec env (initDatabase mysqlExec env m).state).state.databases =
        (initDatabase mysqlExec env m).state.databases) := by
  refine ⟨?_, ⟨?_, rfl, rfl, rfl, ?_, ?_⟩, initDatabase_calls_additive exec env s, ?_, ?_, ?_⟩
  · intro hok
    have hev := initDatabase_events_of_ok exec env s hok
    simp [BootRun.calls, hev, DbCall.createdTable]
  · intro n t hn fk hfk
    match n, hn with
    | 0, hn => simp at hn; subst hn; simp [cargosTable] at hfk
    | 1, hn =>
      simp at hn; subst hn
      simp only [funcionariosTable, List.mem_singleton] at hfk
      subst hfk
      exact ⟨0, cargosTable, by decide, rfl, rfl, by simp [cargosTable]⟩
    | 2, hn =>
      simp at hn; subst hn
      simp only [usuariosTable, List.mem_singleton] at hfk
      subst hfk
      exact ⟨1, funcionariosTable, by decide, rfl, rfl, by simp [funcionariosTable]⟩
    | k + 3, hn => simp at hn
  · intro t ht
    simp only [List.mem_cons, List.mem_singleton, List.not_mem_nil, or_false] at ht
    rcases ht with rfl | rfl | rfl <;> simp [cargosTable, funcionariosTable, usuariosTable]
  · simp [usuariosTable]
  · intro db tables hdb
    rw [initDatabase_state]
    exact runSteps_preserves (initSteps env) (initSteps_additive env) m db tables hdb
  · intro db hname hb
    exact initDatabase_mysql_idempotent env m db hname hb
  · intro hok
    obtain ⟨db, hname, hb⟩ := initDatabase_mysql_bootstraps env m hok
    exact ⟨⟨db, hname, hb⟩, initDatabase_mysql_idempotent env _ db hname hb⟩

/-- Witness for C12: bootstrap of an empty server, and a second run. -/
theorem initDatabase_steps_witness :
    (∀ e ∈ (initDatabase mysqlExec sampleEnv emptyMySql).events, e.failed = false) ∧
    (initDatabase mysqlExec sampleEnv emptyMySql).calls =
      [ .createConnection (some "localhost") (some "root") none,
        .query (.createDatabase true "horas"),
        .changeUser (some "horas"),
        .query (.createTable true cargosTable),
        .query (.createTable true funcionariosTable),
        .query (.createTable true usuariosTable),
        .endConnection ] ∧
    (initDatabase mysqlExec sampleEnv emptyMySql).state.databases "horas" =
      some [cargosTable, funcionariosTable, usuariosTable] ∧
    (initDatabase mysqlExec sampleEnv emptyMySql).state.bootstrapped "horas" ∧
    (initDatabase mysqlExec sampleEnv
        (initDatabase mysqlExec sampleEnv emptyMySql).state).state.databases =
      (initDatabase mysqlExec sampleEnv emptyMySql).state.databases :=
  have hok : ∀ e ∈ (initDatabase mysqlExec sampleEnv emptyMySql).events, e.failed = false := by
    have hev : (initDatabase mysqlExec sampleEnv emptyMySql).events =
        [ .call (.createConnection (some "localhost") (some "root") none) none,
          .call (.query (.createDatabase true "horas")) none,
          .log "✅ Banco de dados \x27horas\x27 verificado/criado.",
          .call (.changeUser (some "horas")) none,
          .call (.query (.createTable true cargosTable)) none,
          .call (.query (.createTable true funcionariosTable)) none,
          .call (.query (.createTable true usuariosTable)) none,
          .call .endConnection none,
          .log "✅ Tabelas verificadas/criadas com sucesso!" ] := rfl
    rw [hev]
    simp [BootEvent.failed]
  have hb : (initDatabase mysqlExec sampleEnv emptyMySql).state.bootstrapped "horas" :=
    ⟨[cargosTable, funcionariosTable, usuariosTable], rfl, rfl, rfl, rfl⟩
  ⟨hok,
    ((initDatabase_steps mysqlExec sampleEnv emptyMySql emptyMySql).1 hok).1,
    rfl, hb,
    ((initDatabase_steps mysqlExec sampleEnv emptyMySql
      (initDatabase mysqlExec sampleEnv emptyMySql).state).2.2.2.2.1 "horas" rfl hb).2⟩

/-- C13, as stated, fails: when the connection is refused, initDatabase logs
the error and resolves, and start-up goes on to call `app.listen`. -/
theorem startup_listens_after_failure :
    (startup refusingExec sampleEnv ()).events =
      [ .call (.createConnection (some "localhost") (some "root") none)
          (some (str "ECONNREFUSED")),
        .logError "❌ Erro ao inicializar banco de dados:" (str "ECONNREFUSED"),
        .listen (some "3000"),
        .log "🚀 Servidor rodando na porta 3000" ] :=
  rfl

/-- C13, amended: bootstrap failure is logged and start-up continues. For
every run in which a step of initDatabase fails (connection, database creation,
database switch, a table creation, closing), the steps after it are skipped, the
error is logged with `console.error` right after the failing call, the promise
of initDatabase still resolves, and the server goes on to listen. -/
theorem startup_after_failure {σ : Type} (exec : σ → DbCall → Except JsVal σ)
    (env : String → Option String) (s : σ) (c : DbCall) (err : JsVal)
    (hfail : BootEvent.call c (some err) ∈ (initDatabase exec env s).events) :
    (∃ before, (initDatabase exec env s).events =
      before ++ [.call c (some err), .logError "❌ Erro ao inicializar banco de dados:" err]) ∧
    (initDatabase exec env s).failure = none ∧
    (startup exec env s).events =
      (initDatabase exec env s).events ++
        [.listen (env "PORT"),
         .log ("🚀 Servidor rodando na porta " ++ interpolate (env "PORT"))] := by
  simp only [startup, initDatabase, initSteps, runSteps] at hfail ⊢
  revert hfail
  repeat' split
  all_goals intro hfail
  all_goals simp_all
  all_goals first
    | exact ⟨[], rfl⟩
    | exact ⟨[_], rfl⟩
    | exact ⟨[_, _], rfl⟩
    | exact ⟨[_, _, _], rfl⟩
    | exact ⟨[_, _, _, _], rfl⟩
    | exact ⟨[_, _, _, _, _], rfl⟩
    | exact ⟨[_, _, _, _, _, _], rfl⟩
    | exact ⟨[_, _, _, _, _, _, _], rfl⟩

/-- Witness for the amended C13: a server that refuses the connection. -/
theorem startup_after_failure_witness :
    BootEvent.call (.createConnection (some "localhost") (some "root") none)
        (some (str "ECONNREFUSED")) ∈ (initDatabase refusingExec sampleEnv ()).events ∧
    (initDatabase refusingExec sampleEnv ()).failure = none ∧
    (startup refusingExec sampleEnv ()).events =
      (initDatabase refusingExec sampleEnv ()).events ++
        [.listen (sampleEnv "PORT"),
         .log ("🚀 Servidor rodando na porta " ++ interpolate (sampleEnv "PORT"))] :=
  ⟨List.Mem.head _,
    (startup_after_failure refusingExec sampleEnv () _ _ (List.Mem.head _)).2⟩

/-! ## Required fields -/

/-- C14: the required-field checks of createFuncionario and createUser test
truthiness: with the fields read from the body, the response is the 400 exactly
when at least one required field is falsy, and then no call is made; when all
are truthy, whatever their types, the handler goes on to its first call (the
INSERT, the hash). The falsy values are undefined (an absent field), null,
false, 0 and the empty string; every other value is truthy. -/
theorem validation_is_truthiness (w : World) (req : Request) :
    (∀ nome cargo_id,
      getProp req.body "nome" = .ok nome → getProp req.body "cargo_id" = .ok cargo_id →
      (nome.truthy = false ∨ cargo_id.truthy = false →
        createFuncionario w req =
          ⟨[], .ok ⟨400, obj [("error", str "Nome e cargo são obrigatórios.")]⟩⟩) ∧
      (nome.truthy = true ∧ cargo_id.truthy = true →
        (createFuncionario w req).calls =
          [Call.query sqlInsertFuncionario [nome, cargo_id]
            (w.query sqlInsertFuncionario [nome, cargo_id])]) ∧
      (∀ r, (createFuncionario w req).result = .ok r →
        (r.status = 400 ↔ (nome.truthy = false ∨ cargo_id.truthy = false)))) ∧
    (∀ email senha funcionario_id,
      getProp req.body "email" = .ok email → getProp req.body "senha" = .ok senha →
      getProp req.body "funcionario_id" = .ok funcionario_id →
      (email.truthy = false ∨ senha.truthy = false ∨ funcionario_id.truthy = false →
        createUser w req =
          ⟨[], .ok ⟨400, obj [("error", str "Preencha todos os campos obrigatórios.")]⟩⟩) ∧
      (email.truthy = true ∧ senha.truthy = true ∧ funcionario_id.truthy = true →
        Call.hash senha 10 (w.hash senha 10) ∈ (createUser w req).calls) ∧
      (∀ r, (createUser w req).result = .ok r →
        (r.status = 400 ↔
          (email.truthy = false ∨ senha.truthy = false ∨ funcionario_id.truthy = false)))) ∧
    (truthy undefined = false ∧ truthy null = false ∧ truthy (JsVal.bool false) = false ∧
      truthy (num 0) = false ∧ truthy (str "") = false) ∧
    (∀ v, truthy v = true ↔
      (v = JsVal.bool true ∨ (∃ n, n ≠ 0 ∧ v = num n) ∨ (∃ s, s ≠ "" ∧ v = str s) ∨
        (∃ items, v = arr items) ∨ (∃ fields, v = obj fields))) := by
  refine ⟨?_, ?_, ⟨rfl, rfl, rfl, rfl, rfl⟩, ?_⟩
  · intro nome cargo_id hn hc
    simp only [createFuncionario, dbQuery, Eff.lift_bind, Eff.call_bind, hn, hc]
    refine ⟨?_, ?_, ?_⟩
    all_goals repeat' split
    all_goals simp_all [Eff.tryCatch_after, Eff.after, Eff.tryCatch, Pure.pure, Eff.pure,
      serverError]
    all_goals aesop
  · intro email senha funcionario_id he hs hf
    simp only [createUser, dbQuery, bcryptHash, Eff.lift_bind, Eff.call_bind, he, hs, hf]
    refine ⟨?_, ?_, ?_⟩
    all_goals repeat' split
    all_goals simp_all [Eff.tryCatch_after, Eff.after, Eff.tryCatch, Pure.pure, Eff.pure,
      serverError]
    all_goals aesop
  · intro v
    cases v <;> simp [truthy]

/-- Witness for C14: a false cargo_id, an empty email and a null
funcionario_id are rejected; truthy fields of unexpected types pass. -/
theorem validation_is_truthiness_witness :
    createFuncionario (sampleWorld (.ok sampleInsertResult) true)
        ⟨obj [("nome", str "Ana"), ("cargo_id", JsVal.bool false)], obj []⟩ =
      ⟨[], .ok ⟨400, obj [("error", str "Nome e cargo são obrigatórios.")]⟩⟩ ∧
    (createFuncionario (sampleWorld (.ok sampleInsertResult) true)
        ⟨obj [("nome", arr []), ("cargo_id", str "1")], obj []⟩).calls =
      [Call.query sqlInsertFuncionario [arr [], str "1"] (.ok sampleInsertResult)] ∧
    createUser (sampleWorld (.ok sampleInsertResult) true)
        ⟨obj [("email", str ""), ("senha", str "SenhaForte123!"), ("funcionario_id", num 15)],
          obj []⟩ =
      ⟨[], .ok ⟨400, obj [("error", str "Preencha todos os campos obrigatórios.")]⟩⟩ ∧
    createUser (sampleWorld (.ok sampleInsertResult) true)
        ⟨obj [("email", str "joao.silva@example.com"), ("senha", str "SenhaForte123!"),
          ("funcionario_id", null)], obj []⟩ =
      ⟨[], .ok ⟨400, obj [("error", str "Preencha todos os campos obrigatórios.")]⟩⟩ ∧
    Call.hash (str "SenhaForte123!") 10 (.ok "$2a$10$SenhaForte123!") ∈
      (createUser (sampleWorld (.ok sampleInsertResult) true)
        ⟨obj [("email", num 1), ("senha", str "SenhaForte123!"), ("funcionario_id", str "15")],
          obj []⟩).calls :=
  ⟨((validation_is_truthiness (sampleWorld (.ok sampleInsertResult) true)
      ⟨obj [("nome", str "Ana"), ("cargo_id", JsVal.bool false)], obj []⟩).1
      (str "Ana") (JsVal.bool false) rfl rfl).1 (Or.inr rfl),
    ((validation_is_truthiness (sampleWorld (.ok sampleInsertResult) true)
      ⟨obj [("nome", arr []), ("cargo_id", str "1")], obj []⟩).1
      (arr []) (str "1") rfl rfl).2.1 ⟨rfl, rfl⟩,
    ((validation_is_truthiness (sampleWorld (.ok sampleInsertResult) true)
      ⟨obj [("email", str ""), ("senha", str "SenhaForte123!"), ("funcionario_id", num 15)],
        obj []⟩).2.1 (str "") (str "SenhaForte123!") (num 15) rfl rfl rfl).1 (Or.inl rfl),
    ((validation_is_truthiness (sampleWorld (.ok sampleInsertResult) true)
      ⟨obj [("email", str "joao.silva@example.com"), ("senha", str "SenhaForte123!"),
        ("funcionario_id", null)], obj []⟩).2.1 (str "joao.silva@example.com")
      (str "SenhaForte123!") null rfl rfl rfl).1 (Or.inr (Or.inr rfl)),
    ((validation_is_truthiness (sampleWorld (.ok sampleInsertResult) true)
      ⟨obj [("email", num 1), ("senha", str "SenhaForte123!"), ("funcionario_id", str "15")],
        obj []⟩).2.1 (num 1) (str "SenhaForte123!") (str "15") rfl rfl rfl).2.1
      ⟨rfl, rfl, rfl⟩⟩

end Horas
